import Mathlib

set_option maxRecDepth 2000000
set_option maxHeartbeats 16000000

/-!
Shallow embedding of `src/count_particles.py`, a three-stage OpenCV
image-segmentation pipeline (specimen mask, crack mask, particle counting).

Images are grids of 8-bit values modelled as `List (List Nat)` in row-major
order (`Gray`), and BGR colour images as `List (List (Nat × Nat × Nat))`
(`Img`).  The cv2 / numpy primitives the script calls are embedded with their
documented semantics:

* `bgr2gray` : cv2.cvtColor COLOR_BGR2GRAY, fixed-point coefficients
  B=1868, G=9617, R=4899 with descale by 2^14 (the OpenCV 8-bit path);
* `blur5` : cv2.GaussianBlur(ksize=(5,5), sigma=0); for sigma 0 and ksize 5
  OpenCV uses the fixed separable kernel [1,4,6,4,1]/16 per axis, border
  BORDER_REFLECT_101, result rounded to nearest;
* `otsu_thresh` / `threshold_otsu` : cv2.threshold(THRESH_BINARY+THRESH_OTSU),
  maximising the between-class variance with the first maximiser kept,
  classes with empty side skipped, output 255 for value > threshold;
* `se_offsets` : cv2.getStructuringElement(MORPH_ELLIPSE, (2k+1,2k+1)):
  row dy keeps the columns |dx| <= round(sqrt(k*k - dy*dy));
* `dilateG` / `erodeG` : grayscale max / min over the structuring element,
  out-of-grid samples ignored (the OpenCV default border for morphology);
* `closingG` / `openingG` with `iterations = n` : n dilations followed by
  n erosions (resp. the converse), as cv2.morphologyEx performs them;
* `blackhatG` : closing minus source (cv2.MORPH_BLACKHAT);
* `claheG` : cv2.createCLAHE(clipLimit=2.0, tileGridSize=(8,8)).apply —
  tile histograms clipped and redistributed, per-tile LUTs from the scaled
  cumulative histogram, bilinear interpolation between the four surrounding
  tile LUTs; arithmetic is exact rational, rounding half-to-even as cvRound;
* `ccomps` : cv2.connectedComponentsWithStats with its default
  8-neighbourhood connectivity, components listed in order of first
  encounter over the row-major pixel scan.
-/

/-- An 8-bit single-channel image: rows of pixel values, row-major. -/
def Gray : Type := List (List Nat)

/-- A BGR colour image: rows of (blue, green, red) triples. -/
def Img : Type := List (List (Nat × Nat × Nat))

instance : DecidableEq Gray := by unfold Gray; infer_instance
instance : DecidableEq Img := by unfold Img; infer_instance

/-- Grid height. -/
def gH (g : Gray) : Nat := g.length

/-- Grid width (of the first row; all grids here are rectangular). -/
def gW (g : Gray) : Nat := (g.headD []).length

/-- Pixel read at integer coordinates, default `d` outside the grid. -/
def gget (g : Gray) (r c : Int) (d : Nat) : Nat :=
  if 0 ≤ r ∧ 0 ≤ c then (g.getD r.toNat []).getD c.toNat d else d

/-- Build an `h × w` grid from a pixel function. -/
def mkGrid (h w : Nat) (f : Nat → Nat → Nat) : Gray :=
  (List.range h).map (fun r => (List.range w).map (fun c => f r c))

/-- BORDER_REFLECT_101 index folding: -1 maps to 1, n maps to n-2. -/
def refl101 (i : Int) (n : Nat) : Nat :=
  if i < 0 then (-i).toNat else if i < (n : Int) then i.toNat else 2 * n - 2 - i.toNat

/-- cv2.cvtColor COLOR_BGR2GRAY on one (b,g,r) pixel: OpenCV 8-bit
fixed-point weights 1868, 9617, 4899 descaled by 2^14 with rounding. -/
def pix2gray (p : Nat × Nat × Nat) : Nat :=
  (1868 * p.1 + 9617 * p.2.1 + 4899 * p.2.2 + 8192) / 16384

/-- cv2.cvtColor(image, COLOR_BGR2GRAY). -/
def bgr2gray (im : Img) : Gray := im.map (List.map pix2gray)

/-- The fixed 5-tap Gaussian kernel OpenCV uses for ksize 5, sigma 0. -/
def gauss5 : List Nat := [1, 4, 6, 4, 1]

/-- cv2.GaussianBlur(gray, (5,5), 0): separable [1,4,6,4,1]/16 kernel,
reflected border, rounded to nearest. -/
def blur5 (g : Gray) : Gray :=
  let h := gH g
  let w := gW g
  mkGrid h w (fun r c =>
    let s := (List.range 5).foldl (fun acc (i : Nat) =>
      (List.range 5).foldl (fun acc2 (j : Nat) =>
        let rr := refl101 ((r : Int) + (i : Int) - 2) h
        let cc := refl101 ((c : Int) + (j : Int) - 2) w
        acc2 + gauss5.getD i 0 * gauss5.getD j 0 * (g.getD rr []).getD cc 0) acc) 0
    (s + 128) / 256)

/-- Histogram of an 8-bit grid: entry v counts the pixels of value v. -/
def histOf (g : Gray) : List Nat :=
  (List.range 256).map (fun v => (g.flatten.filter (fun x => x = v)).length)

/-- Otsu threshold selection as in cv2.threshold(...THRESH_OTSU): scan all
candidate thresholds t, score (w1*s2 - w2*s1 cross term) the between-class
variance (s1*w2 - s2*w1)^2 / (w1*w2), skip t whose lower or upper class is
empty, keep the first strict maximiser, starting from score 0 / value 0. -/
def otsu_loop (cumW cumS : List Nat) (n s : Nat) :
    List Nat → Nat × Int × Int → Nat
  | [], best => best.1
  | t :: rest, (bt, bn, bd) =>
    let w1 := cumW.getD (t + 1) 0
    let s1 := cumS.getD (t + 1) 0
    let w2 := n - w1
    let s2 := s - s1
    if w1 = 0 ∨ w2 = 0 then otsu_loop cumW cumS n s rest (bt, bn, bd)
    else
      let num := ((s1 : Int) * (w2 : Int) - (s2 : Int) * (w1 : Int)) ^ 2
      let den := (w1 : Int) * (w2 : Int)
      if num * bd > bn * den then otsu_loop cumW cumS n s rest (t, num, den)
      else otsu_loop cumW cumS n s rest (bt, bn, bd)

def otsu_from_hist (hist : List Nat) (n : Nat) : Nat :=
  let cumW : List Nat := hist.scanl (· + ·) 0
  let cumS : List Nat := ((List.range 256).map (fun v => v * hist.getD v 0)).scanl (· + ·) 0
  otsu_loop cumW cumS n (cumS.getD 256 0) (List.range 256) (0, 0, 1)

/-- Otsu threshold of a grid: selection over its histogram and pixel count. -/
def otsu_thresh (g : Gray) : Nat :=
  otsu_from_hist (histOf g) g.flatten.length

/-- cv2.threshold(g, 0, 255, THRESH_BINARY + THRESH_OTSU): 255 where the
value exceeds the Otsu threshold. -/
def threshold_otsu (g : Gray) : Gray :=
  let t := otsu_thresh g
  g.map (List.map (fun v => if t < v then 255 else 0))

/-- Floor integer square root by bounded search (kernel-reducible). -/
def isqrt (n : Nat) : Nat :=
  (List.range (n + 2)).foldl (fun acc r => if r * r ≤ n then r else acc) 0

/-- Nearest integer square root (ties cannot occur on integer inputs). -/
def roundSqrt (n : Nat) : Nat :=
  let r := isqrt n
  if n ≤ r * r + r then r else r + 1

/-- Offsets of cv2.getStructuringElement(MORPH_ELLIPSE, (2k+1, 2k+1)):
for each row offset dy the columns with |dx| <= round(k*sqrt(1-(dy/k)^2)). -/
def se_offsets (k : Nat) : List (Int × Int) :=
  (List.range (2 * k + 1)).flatMap (fun i =>
    let dy : Int := (i : Int) - (k : Int)
    let w := roundSqrt (k * k - dy.natAbs * dy.natAbs)
    (List.range (2 * w + 1)).map (fun j => (dy, (j : Int) - (w : Int))))

/-- The 3x3 elliptical structuring element (a cross). -/
def se3 : List (Int × Int) := se_offsets 1

/-- The 9x9 elliptical structuring element. -/
def se9 : List (Int × Int) := se_offsets 4

/-- The 11x11 elliptical structuring element. -/
def se11 : List (Int × Int) := se_offsets 5

/-- cv2.dilate: grayscale maximum over the structuring element; samples
outside the grid are ignored (OpenCV constant border, minus infinity). -/
def dilateG (se : List (Int × Int)) (g : Gray) : Gray :=
  let h := gH g
  let w := gW g
  mkGrid h w (fun r c =>
    se.foldl (fun acc d =>
      let rr := (r : Int) + d.1
      let cc := (c : Int) + d.2
      if 0 ≤ rr ∧ rr < (h : Int) ∧ 0 ≤ cc ∧ cc < (w : Int) then
        max acc (gget g rr cc 0)
      else acc) 0)

/-- cv2.erode: grayscale minimum over the structuring element; samples
outside the grid are ignored (OpenCV constant border, plus infinity). -/
def erodeG (se : List (Int × Int)) (g : Gray) : Gray :=
  let h := gH g
  let w := gW g
  mkGrid h w (fun r c =>
    se.foldl (fun acc d =>
      let rr := (r : Int) + d.1
      let cc := (c : Int) + d.2
      if 0 ≤ rr ∧ rr < (h : Int) ∧ 0 ≤ cc ∧ cc < (w : Int) then
        min acc (gget g rr cc 255)
      else acc) 255)

/-- cv2.morphologyEx MORPH_CLOSE with `iterations = n`: n dilations then
n erosions. -/
def closingG (se : List (Int × Int)) (n : Nat) (g : Gray) : Gray :=
  (erodeG se)^[n] ((dilateG se)^[n] g)

/-- cv2.morphologyEx MORPH_OPEN with `iterations = n`: n erosions then
n dilations. -/
def openingG (se : List (Int × Int)) (n : Nat) (g : Gray) : Gray :=
  (dilateG se)^[n] ((erodeG se)^[n] g)

/-- cv2.morphologyEx MORPH_BLACKHAT: closing of the source minus the
source (truncated subtraction; the closing dominates pointwise). -/
def blackhatG (se : List (Int × Int)) (g : Gray) : Gray :=
  let cl := closingG se 1 g
  mkGrid (gH g) (gW g) (fun r c => gget cl r c 0 - gget g r c 0)

/-- Round num/den to the nearest integer, ties to even (the cvRound rule). -/
def roundHalfEven (num den : Nat) : Nat :=
  let q := num / den
  let r := num % den
  if 2 * r < den then q else if den < 2 * r then q + 1
  else if q % 2 = 0 then q else q + 1

/-- cv2.createCLAHE(clipLimit=2.0, tileGridSize=(8,8)).apply(g): the image is
padded (reflected border) to a multiple of the 8 x 8 tile grid; each tile
histogram is clipped at max(1, 2*tileArea/256) and the clipped mass is
redistributed (uniform batch plus a stepped residual); the tile LUT is the
cumulative histogram scaled by 255/tileArea; every output pixel applies the
four surrounding tile LUTs to its own value, blended bilinearly. -/
def clahe_lut_of_hist (hist : List Nat) (area : Nat) : List Nat :=
  let clipLim := max 1 (2 * area / 256)
  let base := hist.map (fun x => min x clipLim)
  let clipped := area - base.sum
  let batch := clipped / 256
  let residual := clipped % 256
  let step := max (256 / residual) 1
  let finalHist := (base.zip (List.range 256)).map (fun bv =>
    bv.1 + batch +
      (if residual > 0 ∧ bv.2 % step = 0 ∧ bv.2 / step < residual then 1 else 0))
  let cums : List Nat := finalHist.scanl (· + ·) 0
  (cums.drop 1).map (fun cum => roundHalfEven (255 * cum) area)

/-- The per-tile CLAHE lookup tables of an image: for each of the 8 x 8
tiles of the (reflection padded) image, the clipped and redistributed tile
histogram turned into a scaled cumulative lookup table. -/
def clahe_luts (g : Gray) : List (List (List Nat)) :=
  let h := gH g
  let w := gW g
  let tileH := (h + 7) / 8
  let tileW := (w + 7) / 8
  (List.range 8).map (fun ty => (List.range 8).map (fun tx =>
    let pixels := (List.range tileH).flatMap (fun i => (List.range tileW).map (fun j =>
      (g.getD (refl101 ((ty * tileH + i : Nat) : Int) h) []).getD
        (refl101 ((tx * tileW + j : Nat) : Int) w) 0))
    let hist := (List.range 256).map (fun v => (pixels.filter (fun x => x = v)).length)
    clahe_lut_of_hist hist (tileH * tileW)))

/-- The interpolation pass of CLAHE: each pixel value is mapped through the
lookup tables of the four surrounding tiles, blended bilinearly. -/
def clahe_apply (g : Gray) (luts : List (List (List Nat))) : Gray :=
  let h := gH g
  let w := gW g
  let tileH := (h + 7) / 8
  let tileW := (w + 7) / 8
  mkGrid h w (fun y x =>
    let v := (g.getD y []).getD x 0
    let dA := 2 * tileW
    let dB := 2 * tileH
    let txf : Int := (2 * x : Int) - (tileW : Int)
    let tyf : Int := (2 * y : Int) - (tileH : Int)
    let tx1 : Int := txf.fdiv (dA : Int)
    let ty1 : Int := tyf.fdiv (dB : Int)
    let A := (txf - tx1 * (dA : Int)).toNat
    let B := (tyf - ty1 * (dB : Int)).toNat
    let tx1c := (max tx1 0).toNat
    let tx2c := (min (tx1 + 1) 7).toNat
    let ty1c := (max ty1 0).toNat
    let ty2c := (min (ty1 + 1) 7).toNat
    let lu := fun (ty tx : Nat) => ((luts.getD ty []).getD tx []).getD v 0
    roundHalfEven
      (lu ty1c tx1c * ((dA - A) * (dB - B)) + lu ty1c tx2c * (A * (dB - B))
        + lu ty2c tx1c * ((dA - A) * B) + lu ty2c tx2c * (A * B))
      (dA * dB))

/-- cv2.createCLAHE(clipLimit=2.0, tileGridSize=(8,8)).apply(g): the 8 x 8
tile lookup tables followed by the bilinear interpolation pass. -/
def claheG (g : Gray) : Gray := clahe_apply g (clahe_luts g)

/-- 8-neighbourhood adjacency: distinct cells whose row and column each
differ by at most one (cells sharing an edge or a corner). -/
def adj8 (p q : Nat × Nat) : Bool :=
  decide (p ≠ q ∧ p.1 - q.1 + (q.1 - p.1) ≤ 1 ∧ p.2 - q.2 + (q.2 - p.2) ≤ 1)

/-- 4-neighbourhood adjacency: distinct cells sharing an edge (row plus
column distance exactly one). -/
def adj4 (p q : Nat × Nat) : Bool :=
  decide (p ≠ q ∧ (p.1 - q.1 + (q.1 - p.1)) + (p.2 - q.2 + (q.2 - p.2)) ≤ 1)

/-- Row-major list of foreground (nonzero) pixel coordinates of a mask. -/
def fgPositions (m : Gray) : List (Nat × Nat) :=
  (List.range (gH m)).flatMap (fun r =>
    ((List.range ((m.getD r []).length)).filter
      (fun c => (m.getD r []).getD c 0 ≠ 0)).map (fun c => (r, c)))

/-- Insert a pixel into a list of components: the first component adjacent
to it absorbs the pixel together with every later component adjacent to it;
when none is adjacent a new singleton component is appended. -/
def mergeInto (p : Nat × Nat) : List (List (Nat × Nat)) → List (List (Nat × Nat))
  | [] => [[p]]
  | c :: rest =>
    if c.any (fun q => adj8 p q) then
      (c ++ p :: (rest.filter (fun d => d.any (fun q => adj8 p q))).flatten)
        :: rest.filter (fun d => !(d.any (fun q => adj8 p q)))
    else
      c :: mergeInto p rest

/-- cv2.connectedComponentsWithStats with its default 8-connectivity: the
foreground components of the mask, in order of first encounter over the
row-major scan.  Label i+1 is the i-th entry; label 0 is the background. -/
def ccomps (m : Gray) : List (List (Nat × Nat)) :=
  (fgPositions m).foldl (fun comps p => mergeInto p comps) []

/-- First index of the maximum of a list (np.argmax), via an accumulator. -/
def argmaxAux : List Nat → Nat → Nat → Nat → Nat
  | [], _, bi, _ => bi
  | v :: rest, i, bi, bv =>
    if bv < v then argmaxAux rest (i + 1) i v else argmaxAux rest (i + 1) bi bv

/-- np.argmax over a list of areas: first index attaining the maximum. -/
def argmaxIdx (l : List Nat) : Nat := argmaxAux l 0 0 0

/-- np.where(labels == k, 255, 0): the mask of one component. -/
def maskOfComp (m : Gray) (c : List (Nat × Nat)) : Gray :=
  mkGrid (gH m) (gW m) (fun r cc => if (r, cc) ∈ c then 255 else 0)

/-- The raw Otsu-thresholded mask computed at the start of specimen_mask. -/
def specimen_th (image : Img) : Gray := threshold_otsu (blur5 (bgr2gray image))

/-- specimen_mask(image): Otsu threshold of the blurred grayscale image;
if no foreground component exists the raw threshold mask is returned;
otherwise the largest component is kept and closed with the 9x9 ellipse,
2 iterations. -/
def specimen_mask (image : Img) : Gray :=
  let th := specimen_th image
  let comps := ccomps th
  if comps.length + 1 ≤ 1 then th
  else
    let largest := argmaxIdx (comps.map List.length)
    closingG se9 2 (maskOfComp th (comps.getD largest []))

/-- cv2.bitwise_and, pixelwise on the common grid. -/
def bitwise_and (a b : Gray) : Gray :=
  mkGrid (gH a) (gW a) (fun r c => Nat.land (gget a r c 0) (gget b r c 0))

/-- cv2.bitwise_not on 8-bit data: 255 - v. -/
def bitwise_not (a : Gray) : Gray := a.map (List.map (fun v => 255 - v))

/-- The thresholded black-hat response of crack_mask, before the
intersection with the specimen mask. -/
def crack_raw (image : Img) : Gray :=
  threshold_otsu (blackhatG se11 (claheG (bgr2gray image)))

/-- The crack mask right after `cracks = cv2.bitwise_and(cracks, specimen)`,
before the dilation and closing that follow. -/
def crack_pre (image : Img) (specimen : Gray) : Gray :=
  bitwise_and (crack_raw image) specimen

/-- crack_mask(image, specimen): thresholded black-hat of the CLAHE image,
intersected with the specimen, dilated once and closed twice with the 3x3
ellipse. -/
def crack_mask (image : Img) (specimen : Gray) : Gray :=
  closingG se3 2 (dilateG se3 (crack_pre image specimen))

/-- The particle candidate mask of count_particles: specimen minus cracks,
then a 3x3 opening. -/
def particles_mask (image : Img) : Gray :=
  let specimen := specimen_mask image
  let cracks := crack_mask image specimen
  openingG se3 1 (bitwise_and specimen (bitwise_not cracks))

/-- Centroid row: mean row of the member pixels, truncated (int(ys.mean())). -/
def comp_cy (c : List (Nat × Nat)) : Nat := (c.map Prod.fst).sum / c.length

/-- Centroid column: mean column of the member pixels, truncated. -/
def comp_cx (c : List (Nat × Nat)) : Nat := (c.map Prod.snd).sum / c.length

/-- The filtering loop of count_particles: walk the components in label
order with the running count; a component of area below min_area is
skipped, any other receives the next rank. -/
def rank_regions : List (List (Nat × Nat)) → Nat → Nat → List (Nat × List (Nat × Nat))
  | [], _, _ => []
  | c :: rest, ma, count =>
    if c.length < ma then rank_regions rest ma count
    else (count + 1, c) :: rank_regions rest ma (count + 1)

/-- Write one pixel of a colour image. -/
def setPix (im : Img) (r c : Nat) (v : Nat × Nat × Nat) : Img :=
  im.set r ((im.getD r []).set c v)

/-- Modelled effect of cv2.putText(overlay, str(count), (cx-8, cy+5), ...):
glyph rendering is out of scope for the embedding; the model records the
draw by writing the annotation colour (0,0,255) at the text origin whenever
that origin lies inside the image. -/
def put_text (im : Img) (x y : Int) : Img :=
  if 0 ≤ x ∧ 0 ≤ y ∧ y < (im.length : Int) ∧ x < ((im.headD []).length : Int) then
    setPix im y.toNat x.toNat (0, 0, 255)
  else im

/-- count_particles(image, min_area): label the particle mask, drop the
components below min_area, and draw each surviving rank at its centroid on
a copy of the input image; returns the count and the overlay. -/
def count_particles (image : Img) (min_area : Nat) : Nat × Img :=
  let regs := rank_regions (ccomps (particles_mask image)) min_area 0
  let overlay := regs.foldl (fun ov rc =>
    put_text ov ((comp_cx rc.2 : Int) - 8) ((comp_cy rc.2 : Int) + 5)) image
  (regs.length, overlay)

/-- Buffer-level model of count_particles for the frame-effect claims: the
input image is buffer 0 of a small heap, `overlay = image.copy()` allocates
buffer 1 with the same contents, and the single in-place write of the
source (cv2.putText) targets buffer 1.  Every other cv2/numpy call in the
source returns a fresh array and is embedded as a pure value. -/
def count_particles_heap (image : Img) (min_area : Nat) : Nat × List Img :=
  let heap0 : List Img := [image]
  let heap1 := heap0 ++ [heap0.getD 0 []]
  let regs := rank_regions (ccomps (particles_mask image)) min_area 0
  let heap2 := regs.foldl (fun hp rc =>
    hp.set 1 (put_text (hp.getD 1 [])
      ((comp_cx rc.2 : Int) - 8) ((comp_cy rc.2 : Int) + 5))) heap1
  (regs.length, heap2)

/-- Foreground test of a mask at a coordinate pair (nonzero pixel,
coordinates outside the grid read as background). -/
def fgb (m : Gray) (p : Nat × Nat) : Bool :=
  decide ((m.getD p.1 []).getD p.2 0 ≠ 0)

/-- Two pixels lie in the same component of the labelling `ccomps`
(equivalently, they carry the same nonzero label). -/
def sameComp (m : Gray) (p q : Nat × Nat) : Prop :=
  ∃ c, c ∈ ccomps m ∧ p ∈ c ∧ q ∈ c

/-- Reachability inside the foreground of a mask along a given pixel
adjacency: a chain of adjacent foreground pixels from p to q. -/
def ReachVia (adjB : Nat × Nat → Nat × Nat → Bool) (m : Gray) (p q : Nat × Nat) : Prop :=
  fgb m p = true ∧
    Relation.ReflTransGen (fun a b => fgb m b = true ∧ adjB a b = true) p q

/-- Reachability along 8-adjacency within a fixed list of pixels (the
processed prefix of the row-major scan, in the labelling proofs). -/
def ReachIn (l : List (Nat × Nat)) (p q : Nat × Nat) : Prop :=
  p ∈ l ∧ Relation.ReflTransGen (fun a b => b ∈ l ∧ adj8 a b = true) p q


/-- Concrete colour image from a grayscale pattern (all channels equal). -/
def mkImg (h w : Nat) (f : Nat → Nat → Nat) : Img :=
  (List.range h).map (fun r => (List.range w).map (fun c => (f r c, f r c, f r c)))

/-- An 8 x 20 test image: a bright bar in columns 0-5 with a dark 2 x 2
spot at rows 3-4, columns 4-5, dark background elsewhere.  The spot sits on
the edge of the bright bar, so the detected crack touches the boundary of
the specimen mask. -/
def img1 : Img := mkImg 8 20 (fun r c =>
  if c ≤ 5 then (if (r = 3 ∨ r = 4) ∧ (c = 4 ∨ c = 5) then 20 else 220) else 20)

/-- A uniformly black 8 x 8 test image (degenerate: no foreground). -/
def black8 : Img := mkImg 8 8 (fun _ _ => 0)

/-- The all-zero 8 x 8 grid. -/
def stZ8 : Gray := [[0, 0, 0, 0, 0, 0, 0, 0], [0, 0, 0, 0, 0, 0, 0, 0], [0, 0, 0, 0, 0, 0, 0, 0], [0, 0, 0, 0, 0, 0, 0, 0], [0, 0, 0, 0, 0, 0, 0, 0], [0, 0, 0, 0, 0, 0, 0, 0], [0, 0, 0, 0, 0, 0, 0, 0], [0, 0, 0, 0, 0, 0, 0, 0]]

/-- Histogram of the all-zero 8 x 8 grid. -/
def stHB0 : List Nat := [64, 0, 0, 0, 0, 0, 0, 0, 0, 0, 0, 0, 0, 0, 0, 0, 0, 0, 0, 0, 0, 0, 0, 0, 0, 0, 0, 0, 0, 0, 0, 0, 0, 0, 0, 0, 0, 0, 0, 0, 0, 0, 0, 0, 0, 0, 0, 0, 0, 0, 0, 0, 0, 0, 0, 0, 0, 0, 0, 0, 0, 0, 0, 0, 0, 0, 0, 0, 0, 0, 0, 0, 0, 0, 0, 0, 0, 0, 0, 0, 0, 0, 0, 0, 0, 0, 0, 0, 0, 0, 0, 0, 0, 0, 0, 0, 0, 0, 0, 0, 0, 0, 0, 0, 0, 0, 0, 0, 0, 0, 0, 0, 0, 0, 0, 0, 0, 0, 0, 0, 0, 0, 0, 0, 0, 0, 0, 0, 0, 0, 0, 0, 0, 0, 0, 0, 0, 0, 0, 0, 0, 0, 0, 0, 0, 0, 0, 0, 0, 0, 0, 0, 0, 0, 0, 0, 0, 0, 0, 0, 0, 0, 0, 0, 0, 0, 0, 0, 0, 0, 0, 0, 0, 0, 0, 0, 0, 0, 0, 0, 0, 0, 0, 0, 0, 0, 0, 0, 0, 0, 0, 0, 0, 0, 0, 0, 0, 0, 0, 0, 0, 0, 0, 0, 0, 0, 0, 0, 0, 0, 0, 0, 0, 0, 0, 0, 0, 0, 0, 0, 0, 0, 0, 0, 0, 0, 0, 0, 0, 0, 0, 0, 0, 0, 0, 0, 0, 0, 0, 0, 0, 0, 0, 0, 0, 0, 0, 0, 0, 0, 0, 0, 0, 0, 0, 0]

/-- Stage literal of the concrete pipeline run on img1. -/
def stG1 : Gray := [[220, 220, 220, 220, 220, 220, 20, 20, 20, 20, 20, 20, 20, 20, 20, 20, 20, 20, 20, 20], [220, 220, 220, 220, 220, 220, 20, 20, 20, 20, 20, 20, 20, 20, 20, 20, 20, 20, 20, 20], [220, 220, 220, 220, 220, 220, 20, 20, 20, 20, 20, 20, 20, 20, 20, 20, 20, 20, 20, 20], [220, 220, 220, 220, 20, 20, 20, 20, 20, 20, 20, 20, 20, 20, 20, 20, 20, 20, 20, 20], [220, 220, 220, 220, 20, 20, 20, 20, 20, 20, 20, 20, 20, 20, 20, 20, 20, 20, 20, 20], [220, 220, 220, 220, 220, 220, 20, 20, 20, 20, 20, 20, 20, 20, 20, 20, 20, 20, 20, 20], [220, 220, 220, 220, 220, 220, 20, 20, 20, 20, 20, 20, 20, 20, 20, 20, 20, 20, 20, 20], [220, 220, 220, 220, 220, 220, 20, 20, 20, 20, 20, 20, 20, 20, 20, 20, 20, 20, 20, 20]]

/-- Stage literal of the concrete pipeline run on img1. -/
def stB1 : Gray := [[220, 220, 220, 220, 208, 158, 83, 33, 20, 20, 20, 20, 20, 20, 20, 20, 20, 20, 20, 20], [220, 220, 219, 216, 200, 150, 79, 32, 20, 20, 20, 20, 20, 20, 20, 20, 20, 20, 20, 20], [220, 220, 216, 200, 168, 118, 63, 29, 20, 20, 20, 20, 20, 20, 20, 20, 20, 20, 20, 20], [220, 220, 212, 181, 129, 79, 43, 25, 20, 20, 20, 20, 20, 20, 20, 20, 20, 20, 20, 20], [220, 220, 212, 181, 129, 79, 43, 25, 20, 20, 20, 20, 20, 20, 20, 20, 20, 20, 20, 20], [220, 220, 216, 200, 168, 118, 63, 29, 20, 20, 20, 20, 20, 20, 20, 20, 20, 20, 20, 20], [220, 220, 219, 216, 200, 150, 79, 32, 20, 20, 20, 20, 20, 20, 20, 20, 20, 20, 20, 20], [220, 220, 220, 220, 208, 158, 83, 33, 20, 20, 20, 20, 20, 20, 20, 20, 20, 20, 20, 20]]

/-- Stage literal of the concrete pipeline run on img1. -/
def stTH1 : Gray := [[255, 255, 255, 255, 255, 255, 0, 0, 0, 0, 0, 0, 0, 0, 0, 0, 0, 0, 0, 0], [255, 255, 255, 255, 255, 255, 0, 0, 0, 0, 0, 0, 0, 0, 0, 0, 0, 0, 0, 0], [255, 255, 255, 255, 255, 255, 0, 0, 0, 0, 0, 0, 0, 0, 0, 0, 0, 0, 0, 0], [255, 255, 255, 255, 255, 0, 0, 0, 0, 0, 0, 0, 0, 0, 0, 0, 0, 0, 0, 0], [255, 255, 255, 255, 255, 0, 0, 0, 0, 0, 0, 0, 0, 0, 0, 0, 0, 0, 0, 0], [255, 255, 255, 255, 255, 255, 0, 0, 0, 0, 0, 0, 0, 0, 0, 0, 0, 0, 0, 0], [255, 255, 255, 255, 255, 255, 0, 0, 0, 0, 0, 0, 0, 0, 0, 0, 0, 0, 0, 0], [255, 255, 255, 255, 255, 255, 0, 0, 0, 0, 0, 0, 0, 0, 0, 0, 0, 0, 0, 0]]

/-- Stage literal of the concrete pipeline run on img1. -/
def stCM1 : Gray := [[255, 255, 255, 255, 255, 255, 0, 0, 0, 0, 0, 0, 0, 0, 0, 0, 0, 0, 0, 0], [255, 255, 255, 255, 255, 255, 0, 0, 0, 0, 0, 0, 0, 0, 0, 0, 0, 0, 0, 0], [255, 255, 255, 255, 255, 255, 0, 0, 0, 0, 0, 0, 0, 0, 0, 0, 0, 0, 0, 0], [255, 255, 255, 255, 255, 0, 0, 0, 0, 0, 0, 0, 0, 0, 0, 0, 0, 0, 0, 0], [255, 255, 255, 255, 255, 0, 0, 0, 0, 0, 0, 0, 0, 0, 0, 0, 0, 0, 0, 0], [255, 255, 255, 255, 255, 255, 0, 0, 0, 0, 0, 0, 0, 0, 0, 0, 0, 0, 0, 0], [255, 255, 255, 255, 255, 255, 0, 0, 0, 0, 0, 0, 0, 0, 0, 0, 0, 0, 0, 0], [255, 255, 255, 255, 255, 255, 0, 0, 0, 0, 0, 0, 0, 0, 0, 0, 0, 0, 0, 0]]

/-- Stage literal of the concrete pipeline run on img1. -/
def stD1 : Gray := [[255, 255, 255, 255, 255, 255, 255, 255, 255, 255, 0, 0, 0, 0, 0, 0, 0, 0, 0, 0], [255, 255, 255, 255, 255, 255, 255, 255, 255, 255, 0, 0, 0, 0, 0, 0, 0, 0, 0, 0], [255, 255, 255, 255, 255, 255, 255, 255, 255, 255, 0, 0, 0, 0, 0, 0, 0, 0, 0, 0], [255, 255, 255, 255, 255, 255, 255, 255, 255, 255, 0, 0, 0, 0, 0, 0, 0, 0, 0, 0], [255, 255, 255, 255, 255, 255, 255, 255, 255, 255, 0, 0, 0, 0, 0, 0, 0, 0, 0, 0], [255, 255, 255, 255, 255, 255, 255, 255, 255, 255, 0, 0, 0, 0, 0, 0, 0, 0, 0, 0], [255, 255, 255, 255, 255, 255, 255, 255, 255, 255, 0, 0, 0, 0, 0, 0, 0, 0, 0, 0], [255, 255, 255, 255, 255, 255, 255, 255, 255, 255, 0, 0, 0, 0, 0, 0, 0, 0, 0, 0]]

/-- Stage literal of the concrete pipeline run on img1. -/
def stD2 : Gray := [[255, 255, 255, 255, 255, 255, 255, 255, 255, 255, 255, 255, 255, 255, 0, 0, 0, 0, 0, 0], [255, 255, 255, 255, 255, 255, 255, 255, 255, 255, 255, 255, 255, 255, 0, 0, 0, 0, 0, 0], [255, 255, 255, 255, 255, 255, 255, 255, 255, 255, 255, 255, 255, 255, 0, 0, 0, 0, 0, 0], [255, 255, 255, 255, 255, 255, 255, 255, 255, 255, 255, 255, 255, 255, 0, 0, 0, 0, 0, 0], [255, 255, 255, 255, 255, 255, 255, 255, 255, 255, 255, 255, 255, 255, 0, 0, 0, 0, 0, 0], [255, 255, 255, 255, 255, 255, 255, 255, 255, 255, 255, 255, 255, 255, 0, 0, 0, 0, 0, 0], [255, 255, 255, 255, 255, 255, 255, 255, 255, 255, 255, 255, 255, 255, 0, 0, 0, 0, 0, 0], [255, 255, 255, 255, 255, 255, 255, 255, 255, 255, 255, 255, 255, 255, 0, 0, 0, 0, 0, 0]]

/-- Stage literal of the concrete pipeline run on img1. -/
def stE1 : Gray := [[255, 255, 255, 255, 255, 255, 255, 255, 255, 255, 0, 0, 0, 0, 0, 0, 0, 0, 0, 0], [255, 255, 255, 255, 255, 255, 255, 255, 255, 255, 0, 0, 0, 0, 0, 0, 0, 0, 0, 0], [255, 255, 255, 255, 255, 255, 255, 255, 255, 255, 0, 0, 0, 0, 0, 0, 0, 0, 0, 0], [255, 255, 255, 255, 255, 255, 255, 255, 255, 255, 0, 0, 0, 0, 0, 0, 0, 0, 0, 0], [255, 255, 255, 255, 255, 255, 255, 255, 255, 255, 0, 0, 0, 0, 0, 0, 0, 0, 0, 0], [255, 255, 255, 255, 255, 255, 255, 255, 255, 255, 0, 0, 0, 0, 0, 0, 0, 0, 0, 0], [255, 255, 255, 255, 255, 255, 255, 255, 255, 255, 0, 0, 0, 0, 0, 0, 0, 0, 0, 0], [255, 255, 255, 255, 255, 255, 255, 255, 255, 255, 0, 0, 0, 0, 0, 0, 0, 0, 0, 0]]

/-- Stage literal of the concrete pipeline run on img1. -/
def stE2 : Gray := [[255, 255, 255, 255, 255, 255, 0, 0, 0, 0, 0, 0, 0, 0, 0, 0, 0, 0, 0, 0], [255, 255, 255, 255, 255, 255, 0, 0, 0, 0, 0, 0, 0, 0, 0, 0, 0, 0, 0, 0], [255, 255, 255, 255, 255, 255, 0, 0, 0, 0, 0, 0, 0, 0, 0, 0, 0, 0, 0, 0], [255, 255, 255, 255, 255, 255, 0, 0, 0, 0, 0, 0, 0, 0, 0, 0, 0, 0, 0, 0], [255, 255, 255, 255, 255, 255, 0, 0, 0, 0, 0, 0, 0, 0, 0, 0, 0, 0, 0, 0], [255, 255, 255, 255, 255, 255, 0, 0, 0, 0, 0, 0, 0, 0, 0, 0, 0, 0, 0, 0], [255, 255, 255, 255, 255, 255, 0, 0, 0, 0, 0, 0, 0, 0, 0, 0, 0, 0, 0, 0], [255, 255, 255, 255, 255, 255, 0, 0, 0, 0, 0, 0, 0, 0, 0, 0, 0, 0, 0, 0]]

/-- Stage literal of the concrete pipeline run on img1. -/
def stCL1 : Gray := [[255, 255, 255, 255, 255, 255, 128, 156, 170, 170, 170, 170, 170, 170, 170, 170, 170, 170, 170, 170], [255, 255, 255, 255, 255, 255, 128, 156, 170, 170, 170, 170, 170, 170, 170, 170, 170, 170, 170, 170], [255, 255, 255, 255, 255, 255, 128, 156, 170, 170, 170, 170, 170, 170, 170, 170, 170, 170, 170, 170], [255, 255, 255, 255, 120, 135, 149, 163, 170, 170, 170, 170, 170, 170, 170, 170, 170, 170, 170, 170], [255, 255, 255, 255, 156, 170, 170, 170, 170, 170, 170, 170, 170, 170, 170, 170, 170, 170, 170, 170], [255, 255, 255, 255, 255, 255, 149, 163, 170, 170, 170, 170, 170, 170, 170, 170, 170, 170, 170, 170], [255, 255, 255, 255, 255, 255, 128, 156, 170, 170, 170, 170, 170, 170, 170, 170, 170, 170, 170, 170], [255, 255, 255, 255, 255, 255, 128, 156, 170, 170, 170, 170, 170, 170, 170, 170, 170, 170, 170, 170]]

/-- Stage literal of the concrete pipeline run on img1. -/
def stBD1 : Gray := [[255, 255, 255, 255, 255, 255, 255, 255, 255, 255, 255, 170, 170, 170, 170, 170, 170, 170, 170, 170], [255, 255, 255, 255, 255, 255, 255, 255, 255, 255, 255, 170, 170, 170, 170, 170, 170, 170, 170, 170], [255, 255, 255, 255, 255, 255, 255, 255, 255, 255, 255, 170, 170, 170, 170, 170, 170, 170, 170, 170], [255, 255, 255, 255, 255, 255, 255, 255, 255, 255, 255, 170, 170, 170, 170, 170, 170, 170, 170, 170], [255, 255, 255, 255, 255, 255, 255, 255, 255, 255, 255, 170, 170, 170, 170, 170, 170, 170, 170, 170], [255, 255, 255, 255, 255, 255, 255, 255, 255, 255, 255, 170, 170, 170, 170, 170, 170, 170, 170, 170], [255, 255, 255, 255, 255, 255, 255, 255, 255, 255, 255, 170, 170, 170, 170, 170, 170, 170, 170, 170], [255, 255, 255, 255, 255, 255, 255, 255, 255, 255, 255, 170, 170, 170, 170, 170, 170, 170, 170, 170]]

/-- Stage literal of the concrete pipeline run on img1. -/
def stBE1 : Gray := [[255, 255, 255, 255, 255, 255, 170, 170, 170, 170, 170, 170, 170, 170, 170, 170, 170, 170, 170, 170], [255, 255, 255, 255, 255, 255, 170, 170, 170, 170, 170, 170, 170, 170, 170, 170, 170, 170, 170, 170], [255, 255, 255, 255, 255, 255, 170, 170, 170, 170, 170, 170, 170, 170, 170, 170, 170, 170, 170, 170], [255, 255, 255, 255, 255, 255, 170, 170, 170, 170, 170, 170, 170, 170, 170, 170, 170, 170, 170, 170], [255, 255, 255, 255, 255, 255, 170, 170, 170, 170, 170, 170, 170, 170, 170, 170, 170, 170, 170, 170], [255, 255, 255, 255, 255, 255, 170, 170, 170, 170, 170, 170, 170, 170, 170, 170, 170, 170, 170, 170], [255, 255, 255, 255, 255, 255, 170, 170, 170, 170, 170, 170, 170, 170, 170, 170, 170, 170, 170, 170], [255, 255, 255, 255, 255, 255, 170, 170, 170, 170, 170, 170, 170, 170, 170, 170, 170, 170, 170, 170]]

/-- Stage literal of the concrete pipeline run on img1. -/
def stBH1 : Gray := [[0, 0, 0, 0, 0, 0, 42, 14, 0, 0, 0, 0, 0, 0, 0, 0, 0, 0, 0, 0], [0, 0, 0, 0, 0, 0, 42, 14, 0, 0, 0, 0, 0, 0, 0, 0, 0, 0, 0, 0], [0, 0, 0, 0, 0, 0, 42, 14, 0, 0, 0, 0, 0, 0, 0, 0, 0, 0, 0, 0], [0, 0, 0, 0, 135, 120, 21, 7, 0, 0, 0, 0, 0, 0, 0, 0, 0, 0, 0, 0], [0, 0, 0, 0, 99, 85, 0, 0, 0, 0, 0, 0, 0, 0, 0, 0, 0, 0, 0, 0], [0, 0, 0, 0, 0, 0, 21, 7, 0, 0, 0, 0, 0, 0, 0, 0, 0, 0, 0, 0], [0, 0, 0, 0, 0, 0, 42, 14, 0, 0, 0, 0, 0, 0, 0, 0, 0, 0, 0, 0], [0, 0, 0, 0, 0, 0, 42, 14, 0, 0, 0, 0, 0, 0, 0, 0, 0, 0, 0, 0]]

/-- Stage literal of the concrete pipeline run on img1. -/
def stCR1 : Gray := [[0, 0, 0, 0, 0, 0, 0, 0, 0, 0, 0, 0, 0, 0, 0, 0, 0, 0, 0, 0], [0, 0, 0, 0, 0, 0, 0, 0, 0, 0, 0, 0, 0, 0, 0, 0, 0, 0, 0, 0], [0, 0, 0, 0, 0, 0, 0, 0, 0, 0, 0, 0, 0, 0, 0, 0, 0, 0, 0, 0], [0, 0, 0, 0, 255, 255, 0, 0, 0, 0, 0, 0, 0, 0, 0, 0, 0, 0, 0, 0], [0, 0, 0, 0, 255, 255, 0, 0, 0, 0, 0, 0, 0, 0, 0, 0, 0, 0, 0, 0], [0, 0, 0, 0, 0, 0, 0, 0, 0, 0, 0, 0, 0, 0, 0, 0, 0, 0, 0, 0], [0, 0, 0, 0, 0, 0, 0, 0, 0, 0, 0, 0, 0, 0, 0, 0, 0, 0, 0, 0], [0, 0, 0, 0, 0, 0, 0, 0, 0, 0, 0, 0, 0, 0, 0, 0, 0, 0, 0, 0]]

/-- Stage literal of the concrete pipeline run on img1. -/
def stCP1 : Gray := [[0, 0, 0, 0, 0, 0, 0, 0, 0, 0, 0, 0, 0, 0, 0, 0, 0, 0, 0, 0], [0, 0, 0, 0, 0, 0, 0, 0, 0, 0, 0, 0, 0, 0, 0, 0, 0, 0, 0, 0], [0, 0, 0, 0, 0, 0, 0, 0, 0, 0, 0, 0, 0, 0, 0, 0, 0, 0, 0, 0], [0, 0, 0, 0, 255, 255, 0, 0, 0, 0, 0, 0, 0, 0, 0, 0, 0, 0, 0, 0], [0, 0, 0, 0, 255, 255, 0, 0, 0, 0, 0, 0, 0, 0, 0, 0, 0, 0, 0, 0], [0, 0, 0, 0, 0, 0, 0, 0, 0, 0, 0, 0, 0, 0, 0, 0, 0, 0, 0, 0], [0, 0, 0, 0, 0, 0, 0, 0, 0, 0, 0, 0, 0, 0, 0, 0, 0, 0, 0, 0], [0, 0, 0, 0, 0, 0, 0, 0, 0, 0, 0, 0, 0, 0, 0, 0, 0, 0, 0, 0]]

/-- Stage literal of the concrete pipeline run on img1. -/
def stY0 : Gray := [[0, 0, 0, 0, 0, 0, 0, 0, 0, 0, 0, 0, 0, 0, 0, 0, 0, 0, 0, 0], [0, 0, 0, 0, 0, 0, 0, 0, 0, 0, 0, 0, 0, 0, 0, 0, 0, 0, 0, 0], [0, 0, 0, 0, 255, 255, 0, 0, 0, 0, 0, 0, 0, 0, 0, 0, 0, 0, 0, 0], [0, 0, 0, 255, 255, 255, 255, 0, 0, 0, 0, 0, 0, 0, 0, 0, 0, 0, 0, 0], [0, 0, 0, 255, 255, 255, 255, 0, 0, 0, 0, 0, 0, 0, 0, 0, 0, 0, 0, 0], [0, 0, 0, 0, 255, 255, 0, 0, 0, 0, 0, 0, 0, 0, 0, 0, 0, 0, 0, 0], [0, 0, 0, 0, 0, 0, 0, 0, 0, 0, 0, 0, 0, 0, 0, 0, 0, 0, 0, 0], [0, 0, 0, 0, 0, 0, 0, 0, 0, 0, 0, 0, 0, 0, 0, 0, 0, 0, 0, 0]]

/-- Stage literal of the concrete pipeline run on img1. -/
def stY1 : Gray := [[0, 0, 0, 0, 0, 0, 0, 0, 0, 0, 0, 0, 0, 0, 0, 0, 0, 0, 0, 0], [0, 0, 0, 0, 255, 255, 0, 0, 0, 0, 0, 0, 0, 0, 0, 0, 0, 0, 0, 0], [0, 0, 0, 255, 255, 255, 255, 0, 0, 0, 0, 0, 0, 0, 0, 0, 0, 0, 0, 0], [0, 0, 255, 255, 255, 255, 255, 255, 0, 0, 0, 0, 0, 0, 0, 0, 0, 0, 0, 0], [0, 0, 255, 255, 255, 255, 255, 255, 0, 0, 0, 0, 0, 0, 0, 0, 0, 0, 0, 0], [0, 0, 0, 255, 255, 255, 255, 0, 0, 0, 0, 0, 0, 0, 0, 0, 0, 0, 0, 0], [0, 0, 0, 0, 255, 255, 0, 0, 0, 0, 0, 0, 0, 0, 0, 0, 0, 0, 0, 0], [0, 0, 0, 0, 0, 0, 0, 0, 0, 0, 0, 0, 0, 0, 0, 0, 0, 0, 0, 0]]

/-- Stage literal of the concrete pipeline run on img1. -/
def stY2 : Gray := [[0, 0, 0, 0, 255, 255, 0, 0, 0, 0, 0, 0, 0, 0, 0, 0, 0, 0, 0, 0], [0, 0, 0, 255, 255, 255, 255, 0, 0, 0, 0, 0, 0, 0, 0, 0, 0, 0, 0, 0], [0, 0, 255, 255, 255, 255, 255, 255, 0, 0, 0, 0, 0, 0, 0, 0, 0, 0, 0, 0], [0, 255, 255, 255, 255, 255, 255, 255, 255, 0, 0, 0, 0, 0, 0, 0, 0, 0, 0, 0], [0, 255, 255, 255, 255, 255, 255, 255, 255, 0, 0, 0, 0, 0, 0, 0, 0, 0, 0, 0], [0, 0, 255, 255, 255, 255, 255, 255, 0, 0, 0, 0, 0, 0, 0, 0, 0, 0, 0, 0], [0, 0, 0, 255, 255, 255, 255, 0, 0, 0, 0, 0, 0, 0, 0, 0, 0, 0, 0, 0], [0, 0, 0, 0, 255, 255, 0, 0, 0, 0, 0, 0, 0, 0, 0, 0, 0, 0, 0, 0]]

/-- Stage literal of the concrete pipeline run on img1. -/
def stY3 : Gray := [[0, 0, 0, 0, 0, 0, 0, 0, 0, 0, 0, 0, 0, 0, 0, 0, 0, 0, 0, 0], [0, 0, 0, 0, 255, 255, 0, 0, 0, 0, 0, 0, 0, 0, 0, 0, 0, 0, 0, 0], [0, 0, 0, 255, 255, 255, 255, 0, 0, 0, 0, 0, 0, 0, 0, 0, 0, 0, 0, 0], [0, 0, 255, 255, 255, 255, 255, 255, 0, 0, 0, 0, 0, 0, 0, 0, 0, 0, 0, 0], [0, 0, 255, 255, 255, 255, 255, 255, 0, 0, 0, 0, 0, 0, 0, 0, 0, 0, 0, 0], [0, 0, 0, 255, 255, 255, 255, 0, 0, 0, 0, 0, 0, 0, 0, 0, 0, 0, 0, 0], [0, 0, 0, 0, 255, 255, 0, 0, 0, 0, 0, 0, 0, 0, 0, 0, 0, 0, 0, 0], [0, 0, 0, 0, 0, 0, 0, 0, 0, 0, 0, 0, 0, 0, 0, 0, 0, 0, 0, 0]]

/-- Stage literal of the concrete pipeline run on img1. -/
def stY4 : Gray := [[0, 0, 0, 0, 0, 0, 0, 0, 0, 0, 0, 0, 0, 0, 0, 0, 0, 0, 0, 0], [0, 0, 0, 0, 0, 0, 0, 0, 0, 0, 0, 0, 0, 0, 0, 0, 0, 0, 0, 0], [0, 0, 0, 0, 255, 255, 0, 0, 0, 0, 0, 0, 0, 0, 0, 0, 0, 0, 0, 0], [0, 0, 0, 255, 255, 255, 255, 0, 0, 0, 0, 0, 0, 0, 0, 0, 0, 0, 0, 0], [0, 0, 0, 255, 255, 255, 255, 0, 0, 0, 0, 0, 0, 0, 0, 0, 0, 0, 0, 0], [0, 0, 0, 0, 255, 255, 0, 0, 0, 0, 0, 0, 0, 0, 0, 0, 0, 0, 0, 0], [0, 0, 0, 0, 0, 0, 0, 0, 0, 0, 0, 0, 0, 0, 0, 0, 0, 0, 0, 0], [0, 0, 0, 0, 0, 0, 0, 0, 0, 0, 0, 0, 0, 0, 0, 0, 0, 0, 0, 0]]

/-- Stage literal of the concrete pipeline run on img1. -/
def stPN1 : Gray := [[255, 255, 255, 255, 255, 255, 255, 255, 255, 255, 255, 255, 255, 255, 255, 255, 255, 255, 255, 255], [255, 255, 255, 255, 255, 255, 255, 255, 255, 255, 255, 255, 255, 255, 255, 255, 255, 255, 255, 255], [255, 255, 255, 255, 0, 0, 255, 255, 255, 255, 255, 255, 255, 255, 255, 255, 255, 255, 255, 255], [255, 255, 255, 0, 0, 0, 0, 255, 255, 255, 255, 255, 255, 255, 255, 255, 255, 255, 255, 255], [255, 255, 255, 0, 0, 0, 0, 255, 255, 255, 255, 255, 255, 255, 255, 255, 255, 255, 255, 255], [255, 255, 255, 255, 0, 0, 255, 255, 255, 255, 255, 255, 255, 255, 255, 255, 255, 255, 255, 255], [255, 255, 255, 255, 255, 255, 255, 255, 255, 255, 255, 255, 255, 255, 255, 255, 255, 255, 255, 255], [255, 255, 255, 255, 255, 255, 255, 255, 255, 255, 255, 255, 255, 255, 255, 255, 255, 255, 255, 255]]

/-- Stage literal of the concrete pipeline run on img1. -/
def stPM0 : Gray := [[255, 255, 255, 255, 255, 255, 0, 0, 0, 0, 0, 0, 0, 0, 0, 0, 0, 0, 0, 0], [255, 255, 255, 255, 255, 255, 0, 0, 0, 0, 0, 0, 0, 0, 0, 0, 0, 0, 0, 0], [255, 255, 255, 255, 0, 0, 0, 0, 0, 0, 0, 0, 0, 0, 0, 0, 0, 0, 0, 0], [255, 255, 255, 0, 0, 0, 0, 0, 0, 0, 0, 0, 0, 0, 0, 0, 0, 0, 0, 0], [255, 255, 255, 0, 0, 0, 0, 0, 0, 0, 0, 0, 0, 0, 0, 0, 0, 0, 0, 0], [255, 255, 255, 255, 0, 0, 0, 0, 0, 0, 0, 0, 0, 0, 0, 0, 0, 0, 0, 0], [255, 255, 255, 255, 255, 255, 0, 0, 0, 0, 0, 0, 0, 0, 0, 0, 0, 0, 0, 0], [255, 255, 255, 255, 255, 255, 0, 0, 0, 0, 0, 0, 0, 0, 0, 0, 0, 0, 0, 0]]

/-- Stage literal of the concrete pipeline run on img1. -/
def stPE1 : Gray := [[255, 255, 255, 255, 255, 0, 0, 0, 0, 0, 0, 0, 0, 0, 0, 0, 0, 0, 0, 0], [255, 255, 255, 255, 0, 0, 0, 0, 0, 0, 0, 0, 0, 0, 0, 0, 0, 0, 0, 0], [255, 255, 255, 0, 0, 0, 0, 0, 0, 0, 0, 0, 0, 0, 0, 0, 0, 0, 0, 0], [255, 255, 0, 0, 0, 0, 0, 0, 0, 0, 0, 0, 0, 0, 0, 0, 0, 0, 0, 0], [255, 255, 0, 0, 0, 0, 0, 0, 0, 0, 0, 0, 0, 0, 0, 0, 0, 0, 0, 0], [255, 255, 255, 0, 0, 0, 0, 0, 0, 0, 0, 0, 0, 0, 0, 0, 0, 0, 0, 0], [255, 255, 255, 255, 0, 0, 0, 0, 0, 0, 0, 0, 0, 0, 0, 0, 0, 0, 0, 0], [255, 255, 255, 255, 255, 0, 0, 0, 0, 0, 0, 0, 0, 0, 0, 0, 0, 0, 0, 0]]

/-- Stage literal of the concrete pipeline run on img1. -/
def stPD1 : Gray := [[255, 255, 255, 255, 255, 255, 0, 0, 0, 0, 0, 0, 0, 0, 0, 0, 0, 0, 0, 0], [255, 255, 255, 255, 255, 0, 0, 0, 0, 0, 0, 0, 0, 0, 0, 0, 0, 0, 0, 0], [255, 255, 255, 255, 0, 0, 0, 0, 0, 0, 0, 0, 0, 0, 0, 0, 0, 0, 0, 0], [255, 255, 255, 0, 0, 0, 0, 0, 0, 0, 0, 0, 0, 0, 0, 0, 0, 0, 0, 0], [255, 255, 255, 0, 0, 0, 0, 0, 0, 0, 0, 0, 0, 0, 0, 0, 0, 0, 0, 0], [255, 255, 255, 255, 0, 0, 0, 0, 0, 0, 0, 0, 0, 0, 0, 0, 0, 0, 0, 0], [255, 255, 255, 255, 255, 0, 0, 0, 0, 0, 0, 0, 0, 0, 0, 0, 0, 0, 0, 0], [255, 255, 255, 255, 255, 255, 0, 0, 0, 0, 0, 0, 0, 0, 0, 0, 0, 0, 0, 0]]

/-- Stage literal of the concrete pipeline run on img1. -/
def stHB1 : List Nat := [0, 0, 0, 0, 0, 0, 0, 0, 0, 0, 0, 0, 0, 0, 0, 0, 0, 0, 0, 0, 96, 0, 0, 0, 0, 2, 0, 0, 0, 2, 0, 0, 2, 2, 0, 0, 0, 0, 0, 0, 0, 0, 0, 2, 0, 0, 0, 0, 0, 0, 0, 0, 0, 0, 0, 0, 0, 0, 0, 0, 0, 0, 0, 2, 0, 0, 0, 0, 0, 0, 0, 0, 0, 0, 0, 0, 0, 0, 0, 4, 0, 0, 0, 2, 0, 0, 0, 0, 0, 0, 0, 0, 0, 0, 0, 0, 0, 0, 0, 0, 0, 0, 0, 0, 0, 0, 0, 0, 0, 0, 0, 0, 0, 0, 0, 0, 0, 0, 2, 0, 0, 0, 0, 0, 0, 0, 0, 0, 0, 2, 0, 0, 0, 0, 0, 0, 0, 0, 0, 0, 0, 0, 0, 0, 0, 0, 0, 0, 0, 0, 2, 0, 0, 0, 0, 0, 0, 0, 2, 0, 0, 0, 0, 0, 0, 0, 0, 0, 2, 0, 0, 0, 0, 0, 0, 0, 0, 0, 0, 0, 0, 2, 0, 0, 0, 0, 0, 0, 0, 0, 0, 0, 0, 0, 0, 0, 0, 0, 0, 0, 4, 0, 0, 0, 0, 0, 0, 0, 2, 0, 0, 0, 2, 0, 0, 0, 4, 0, 0, 2, 20, 0, 0, 0, 0, 0, 0, 0, 0, 0, 0, 0, 0, 0, 0, 0, 0, 0, 0, 0, 0, 0, 0, 0, 0, 0, 0, 0, 0, 0, 0, 0, 0, 0, 0, 0]

/-- Stage literal of the concrete pipeline run on img1. -/
def stHC1 : List Nat := [142, 0, 0, 0, 0, 0, 0, 2, 0, 0, 0, 0, 0, 0, 5, 0, 0, 0, 0, 0, 0, 2, 0, 0, 0, 0, 0, 0, 0, 0, 0, 0, 0, 0, 0, 0, 0, 0, 0, 0, 0, 0, 5, 0, 0, 0, 0, 0, 0, 0, 0, 0, 0, 0, 0, 0, 0, 0, 0, 0, 0, 0, 0, 0, 0, 0, 0, 0, 0, 0, 0, 0, 0, 0, 0, 0, 0, 0, 0, 0, 0, 0, 0, 0, 0, 1, 0, 0, 0, 0, 0, 0, 0, 0, 0, 0, 0, 0, 0, 1, 0, 0, 0, 0, 0, 0, 0, 0, 0, 0, 0, 0, 0, 0, 0, 0, 0, 0, 0, 0, 1, 0, 0, 0, 0, 0, 0, 0, 0, 0, 0, 0, 0, 0, 0, 1, 0, 0, 0, 0, 0, 0, 0, 0, 0, 0, 0, 0, 0, 0, 0, 0, 0, 0, 0, 0, 0, 0, 0, 0, 0, 0, 0, 0, 0, 0, 0, 0, 0, 0, 0, 0, 0, 0, 0, 0, 0, 0, 0, 0, 0, 0, 0, 0, 0, 0, 0, 0, 0, 0, 0, 0, 0, 0, 0, 0, 0, 0, 0, 0, 0, 0, 0, 0, 0, 0, 0, 0, 0, 0, 0, 0, 0, 0, 0, 0, 0, 0, 0, 0, 0, 0, 0, 0, 0, 0, 0, 0, 0, 0, 0, 0, 0, 0, 0, 0, 0, 0, 0, 0, 0, 0, 0, 0, 0, 0, 0, 0, 0, 0, 0, 0, 0, 0, 0, 0]

/-- Stage literal of the concrete pipeline run on img1. -/
def stK1 : List (List (Nat × Nat)) := [[(0, 0), (0, 1), (0, 2), (0, 3), (0, 4), (0, 5), (1, 0), (1, 1), (1, 2), (1, 3), (1, 4), (1, 5), (2, 0), (2, 1), (2, 2), (2, 3), (2, 4), (2, 5), (3, 0), (3, 1), (3, 2), (3, 3), (3, 4), (4, 0), (4, 1), (4, 2), (4, 3), (4, 4), (5, 0), (5, 1), (5, 2), (5, 3), (5, 4), (5, 5), (6, 0), (6, 1), (6, 2), (6, 3), (6, 4), (6, 5), (7, 0), (7, 1), (7, 2), (7, 3), (7, 4), (7, 5)]]

/-- Stage literal of the concrete pipeline run on img1. -/
def stKP1 : List (List (Nat × Nat)) := [[(0, 0), (0, 1), (0, 2), (0, 3), (0, 4), (0, 5), (1, 0), (1, 1), (1, 2), (1, 3), (1, 4), (2, 0), (2, 1), (2, 2), (2, 3), (3, 0), (3, 1), (3, 2), (4, 0), (4, 1), (4, 2), (5, 0), (5, 1), (5, 2), (5, 3), (6, 0), (6, 1), (6, 2), (6, 3), (6, 4), (7, 0), (7, 1), (7, 2), (7, 3), (7, 4), (7, 5)]]

/-! General lemmas about the counting loop. -/

theorem rank_regions_eq (l : List (List (Nat × Nat))) (ma k : Nat) :
    rank_regions l ma k =
      (List.range' (k + 1) ((l.filter (fun c => ma ≤ c.length)).length)).zip
        (l.filter (fun c => ma ≤ c.length)) := by
  induction l generalizing k with
  | nil => simp [rank_regions]
  | cons c rest ih =>
    by_cases h : c.length < ma
    · have h2 : ¬ (ma ≤ c.length) := by omega
      simp [rank_regions, h, h2, ih]
    · have h2 : ma ≤ c.length := by omega
      simp [rank_regions, h, h2, List.range'_succ, ih]

theorem rank_regions_length (l : List (List (Nat × Nat))) (ma k : Nat) :
    (rank_regions l ma k).length = (l.filter (fun c => ma ≤ c.length)).length := by
  rw [rank_regions_eq]
  simp

theorem count_particles_count (image : Img) (ma : Nat) :
    (count_particles image ma).1 =
      ((ccomps (particles_mask image)).filter (fun c => ma ≤ c.length)).length := by
  unfold count_particles
  simpa using rank_regions_length (ccomps (particles_mask image)) ma 0

theorem filter_length_mono {α : Type} (l : List α) (p q : α → Bool)
    (h : ∀ x, p x = true → q x = true) :
    (l.filter p).length ≤ (l.filter q).length := by
  induction l with
  | nil => simp
  | cons a t ih =>
    by_cases hp : p a = true
    · simp [List.filter_cons, hp, h a hp]
      omega
    · simp only [List.filter_cons]
      rw [Bool.not_eq_true] at hp
      rw [hp]
      by_cases hq : q a = true
      · simp [hq]
        omega
      · rw [Bool.not_eq_true] at hq
        rw [hq]
        simpa using ih

/-- C2: for a fixed input image, the count returned by count_particles with
a larger minimum-area threshold is at most the count returned with a
smaller one: raising the threshold can only exclude components. -/
theorem c2_min_area_monotone (image : Img) (a b : Nat) (hab : a ≤ b) :
    (count_particles image b).1 ≤ (count_particles image a).1 := by
  rw [count_particles_count, count_particles_count]
  exact filter_length_mono _ _ _ (fun c hc => by
    simp only [decide_eq_true_eq] at hc ⊢
    omega)

/-- C7: the count is non-negative and bounded by the number of connected
components of the particle candidate mask before the area filter. -/
theorem c7_count_bounded (image : Img) (ma : Nat) :
    0 ≤ (count_particles image ma).1 ∧
      (count_particles image ma).1 ≤ (ccomps (particles_mask image)).length := by
  refine ⟨Nat.zero_le _, ?_⟩
  rw [count_particles_count]
  exact List.length_filter_le _ _

/-- C10: when no region qualifies (count 0) the overlay returned by
count_particles is the unmodified copy of the input image; the overlay pair
is produced on every run by construction. -/
theorem c10_zero_count_overlay_identity (image : Img) (ma : Nat)
    (h : (count_particles image ma).1 = 0) :
    (count_particles image ma).2 = image := by
  unfold count_particles at h ⊢
  simp only at h ⊢
  rcases hr : rank_regions (ccomps (particles_mask image)) ma 0 with _ | ⟨a, t⟩
  · simp
  · rw [hr] at h
    simp at h

/-- C8: the pipeline is deterministic: the count, the overlay and the
intermediate masks are functions of the input image and threshold alone
(the source has no randomness, time, or global state). -/
theorem c8_deterministic (im1 im2 : Img) (ma1 ma2 : Nat)
    (him : im1 = im2) (hma : ma1 = ma2) :
    count_particles im1 ma1 = count_particles im2 ma2 ∧
      specimen_mask im1 = specimen_mask im2 ∧
      crack_mask im1 (specimen_mask im1) = crack_mask im2 (specimen_mask im2) := by
  subst him
  subst hma
  exact ⟨rfl, rfl, rfl⟩

/-- C5: when Otsu thresholding yields zero foreground components the raw
thresholded mask is returned unchanged by specimen_mask (and the pipeline
still runs to completion, count_particles being a total function). -/
theorem c5_degenerate_returns_raw (image : Img)
    (h : (ccomps (specimen_th image)).length = 0) :
    specimen_mask image = specimen_th image := by
  unfold specimen_mask
  simp only []
  rw [if_pos (by omega)]

theorem getD_zero_set_one {α : Type} (l : List α) (x : α) (d : α) :
    (l.set 1 x).getD 0 d = l.getD 0 d := by
  cases l with
  | nil => rfl
  | cons a t => cases t <;> rfl

theorem foldl_set_one_getD_zero {α β : Type} (l : List β)
    (f : List α → β → α) (hp : List α) (d : α) :
    (l.foldl (fun h rc => h.set 1 (f h rc)) hp).getD 0 d = hp.getD 0 d := by
  induction l generalizing hp with
  | nil => rfl
  | cons b t ih => rw [List.foldl_cons, ih, getD_zero_set_one]

/-- C9: no pipeline stage mutates the input image buffer: in the
buffer-level model the input occupies buffer 0, the single in-place write
(cv2.putText) targets the freshly copied overlay buffer 1, and after
count_particles returns buffer 0 still holds the original image. -/
theorem c9_input_not_mutated (image : Img) (ma : Nat) :
    ((count_particles_heap image ma).2).getD 0 [] = image := by
  unfold count_particles_heap
  simp only []
  rw [foldl_set_one_getD_zero]
  rfl

/-- C4: the filtering loop of count_particles keeps a component exactly
when its area is at least the minimum-area threshold (strictly smaller
areas are discarded, equality qualifies), assigns the survivors the
sequential ranks 1..count in label order, and draws each rank on the
overlay at the truncated mean-row / mean-column centroid of the component. -/
theorem c4_area_filter_rank_centroid (image : Img) (ma : Nat) :
    rank_regions (ccomps (particles_mask image)) ma 0 =
      (List.range' 1
        (((ccomps (particles_mask image)).filter (fun c => ma ≤ c.length)).length)).zip
        ((ccomps (particles_mask image)).filter (fun c => ma ≤ c.length)) ∧
    (count_particles image ma).1 =
      (((ccomps (particles_mask image)).filter (fun c => ma ≤ c.length)).length) ∧
    (count_particles image ma).2 =
      (rank_regions (ccomps (particles_mask image)) ma 0).foldl
        (fun ov rc => put_text ov
          (((rc.2.map Prod.snd).sum / rc.2.length : Nat) - 8)
          (((rc.2.map Prod.fst).sum / rc.2.length : Nat) + 5)) image := by
  refine ⟨rank_regions_eq _ _ _, count_particles_count image ma, ?_⟩
  unfold count_particles comp_cx comp_cy
  simp only []

theorem getD_map_range {α : Type} (n : Nat) (f : Nat → α) (i : Nat) (d : α) :
    ((List.range n).map f).getD i d = if i < n then f i else d := by
  rw [List.getD_eq_getElem?_getD, List.getElem?_map]
  by_cases h : i < n
  · simp [List.getElem?_range, h]
  · rw [List.getElem?_eq_none (by simpa using Nat.le_of_not_lt h)]
    simp [h]

theorem gget_mkGrid (h w : Nat) (f : Nat → Nat → Nat) (r c : Int) (d : Nat) :
    gget (mkGrid h w f) r c d =
      if 0 ≤ r ∧ r < (h : Int) ∧ 0 ≤ c ∧ c < (w : Int) then f r.toNat c.toNat else d := by
  unfold gget mkGrid
  by_cases h1 : 0 ≤ r ∧ 0 ≤ c
  · rw [if_pos h1, getD_map_range]
    by_cases h2 : r.toNat < h
    · rw [if_pos h2, getD_map_range]
      by_cases h3 : c.toNat < w
      · rw [if_pos h3, if_pos (by omega)]
      · rw [if_neg h3, if_neg (by omega)]
    · rw [if_neg h2, if_neg (by omega)]
      rfl
  · rw [if_neg h1, if_neg (by omega)]

theorem land_ne_zero_right (x y : Nat) (h : Nat.land x y ≠ 0) : y ≠ 0 := by
  intro hy
  subst hy
  exact h (Nat.and_zero x)

/-- C1 (amended): the subset invariant holds at the intersection stage of
crack_mask: every foreground pixel of `cracks = bitwise_and(cracks,
specimen)` lies inside the specimen mask.  The dilation and closing that
follow may push crack pixels outside the specimen (see the counterexample),
so the invariant holds before those steps, not after them. -/
theorem c1_crack_subset_amended (image : Img) (specimen : Gray) (r c : Int)
    (h : gget (crack_pre image specimen) r c 0 ≠ 0) :
    gget specimen r c 0 ≠ 0 := by
  unfold crack_pre bitwise_and at h
  rw [gget_mkGrid] at h
  by_cases hb : 0 ≤ r ∧ r < (gH (crack_raw image) : Int) ∧ 0 ≤ c ∧ c < (gW (crack_raw image) : Int)
  · rw [if_pos hb] at h
    have hy := land_ne_zero_right _ _ h
    have hr : ((r.toNat : Int)) = r := Int.toNat_of_nonneg hb.1
    have hc : ((c.toNat : Int)) = c := Int.toNat_of_nonneg hb.2.2.1
    rw [hr, hc] at hy
    exact hy
  · rw [if_neg hb] at h
    exact absurd rfl h

/-! Correctness of the component labelling `ccomps`. -/

theorem adj8_symm {p q : Nat × Nat} (h : adj8 p q = true) : adj8 q p = true := by
  rcases p with ⟨p1, p2⟩
  rcases q with ⟨q1, q2⟩
  simp only [adj8, decide_eq_true_eq] at h ⊢
  obtain ⟨hne, h1, h2⟩ := h
  exact ⟨hne.symm, by omega, by omega⟩

theorem adj8_irrefl (p : Nat × Nat) : adj8 p p = false := by
  simp [adj8]

theorem mergeInto_mem (p : Nat × Nat) (comps : List (List (Nat × Nat))) (x : Nat × Nat) :
    (∃ c ∈ mergeInto p comps, x ∈ c) ↔ x = p ∨ ∃ c ∈ comps, x ∈ c := by
  induction comps with
  | nil => simp [mergeInto]
  | cons c rest ih =>
    by_cases h : c.any (fun q => adj8 p q) = true
    · simp only [mergeInto, if_pos h]
      constructor
      · rintro ⟨c', hc', hx⟩
        rcases List.mem_cons.mp hc' with rfl | hmem
        · rcases List.mem_append.mp hx with hxc | hxr
          · exact Or.inr ⟨c, List.mem_cons_self _ _, hxc⟩
          · rcases List.mem_cons.mp hxr with rfl | hfl
            · exact Or.inl rfl
            · rcases List.mem_flatten.mp hfl with ⟨d, hd, hxd⟩
              exact Or.inr ⟨d, List.mem_cons_of_mem _ (List.mem_filter.mp hd).1, hxd⟩
        · exact Or.inr ⟨c', List.mem_cons_of_mem _ (List.mem_filter.mp hmem).1, hx⟩
      · rintro (rfl | ⟨c', hc', hx⟩)
        · exact ⟨_, List.mem_cons_self _ _, List.mem_append.mpr (Or.inr (List.mem_cons_self _ _))⟩
        · rcases List.mem_cons.mp hc' with rfl | hmem
          · exact ⟨_, List.mem_cons_self _ _, List.mem_append.mpr (Or.inl hx)⟩
          · by_cases hd : c'.any (fun q => adj8 p q) = true
            · refine ⟨_, List.mem_cons_self _ _, List.mem_append.mpr (Or.inr (List.mem_cons_of_mem _ ?_))⟩
              exact List.mem_flatten.mpr ⟨c', List.mem_filter.mpr ⟨hmem, hd⟩, hx⟩
            · exact ⟨c', List.mem_cons_of_mem _ (List.mem_filter.mpr ⟨hmem, by simp [hd]⟩), hx⟩
    · simp only [mergeInto, if_neg h]
      constructor
      · rintro ⟨c', hc', hx⟩
        rcases List.mem_cons.mp hc' with rfl | hmem
        · exact Or.inr ⟨c', List.mem_cons_self _ _, hx⟩
        · rcases ih.mp ⟨c', hmem, hx⟩ with h1 | ⟨d, hd, hxd⟩
          · exact Or.inl h1
          · exact Or.inr ⟨d, List.mem_cons_of_mem _ hd, hxd⟩
      · rintro (rfl | ⟨c', hc', hx⟩)
        · rcases ih.mpr (Or.inl rfl) with ⟨d, hd, hxd⟩
          exact ⟨d, List.mem_cons_of_mem _ hd, hxd⟩
        · rcases List.mem_cons.mp hc' with rfl | hmem
          · exact ⟨c', List.mem_cons_self _ _, hx⟩
          · rcases ih.mpr (Or.inr ⟨c', hmem, hx⟩) with ⟨d, hd, hxd⟩
            exact ⟨d, List.mem_cons_of_mem _ hd, hxd⟩

theorem mergeInto_cover (p : Nat × Nat) (comps : List (List (Nat × Nat)))
    (c : List (Nat × Nat)) (hc : c ∈ comps) :
    ∃ c' ∈ mergeInto p comps, ∀ x ∈ c, x ∈ c' := by
  induction comps with
  | nil => cases hc
  | cons c0 rest ih =>
    by_cases h : c0.any (fun q => adj8 p q) = true
    · simp only [mergeInto, if_pos h]
      rcases List.mem_cons.mp hc with rfl | hmem
      · exact ⟨_, List.mem_cons_self _ _, fun x hx => List.mem_append.mpr (Or.inl hx)⟩
      · by_cases hd : c.any (fun q => adj8 p q) = true
        · refine ⟨_, List.mem_cons_self _ _, fun x hx => List.mem_append.mpr (Or.inr (List.mem_cons_of_mem _ ?_))⟩
          exact List.mem_flatten.mpr ⟨c, List.mem_filter.mpr ⟨hmem, hd⟩, hx⟩
        · exact ⟨c, List.mem_cons_of_mem _ (List.mem_filter.mpr ⟨hmem, by simp [hd]⟩), fun x hx => hx⟩
    · simp only [mergeInto, if_neg h]
      rcases List.mem_cons.mp hc with rfl | hmem
      · exact ⟨c, List.mem_cons_self _ _, fun x hx => hx⟩
      · rcases ih hmem with ⟨c', hc', hsub⟩
        exact ⟨c', List.mem_cons_of_mem _ hc', hsub⟩

theorem mergeInto_pcomp (p : Nat × Nat) (comps : List (List (Nat × Nat))) :
    ∃ c' ∈ mergeInto p comps, p ∈ c' ∧
      ∀ c ∈ comps, (∃ y ∈ c, adj8 p y = true) → ∀ x ∈ c, x ∈ c' := by
  induction comps with
  | nil =>
    refine ⟨[p], List.mem_cons_self _ _, List.mem_cons_self _ _, ?_⟩
    intro c hc
    cases hc
  | cons c0 rest ih =>
    by_cases h : c0.any (fun q => adj8 p q) = true
    · simp only [mergeInto, if_pos h]
      refine ⟨_, List.mem_cons_self _ _,
        List.mem_append.mpr (Or.inr (List.mem_cons_self _ _)), ?_⟩
      intro c hc hadj x hx
      rcases List.mem_cons.mp hc with rfl | hmem
      · exact List.mem_append.mpr (Or.inl hx)
      · have hd : c.any (fun q => adj8 p q) = true := by
          rcases hadj with ⟨y, hy, hyp⟩
          exact List.any_eq_true.mpr ⟨y, hy, hyp⟩
        refine List.mem_append.mpr (Or.inr (List.mem_cons_of_mem _ ?_))
        exact List.mem_flatten.mpr ⟨c, List.mem_filter.mpr ⟨hmem, hd⟩, hx⟩
    · simp only [mergeInto, if_neg h]
      rcases ih with ⟨c', hc', hpc', habs⟩
      refine ⟨c', List.mem_cons_of_mem _ hc', hpc', ?_⟩
      intro c hc hadj x hx
      rcases List.mem_cons.mp hc with rfl | hmem
      · rcases hadj with ⟨y, hy, hyp⟩
        exact absurd (List.any_eq_true.mpr ⟨y, hy, hyp⟩) h
      · exact habs c hmem hadj x hx

theorem mergeInto_struct (p : Nat × Nat) (comps : List (List (Nat × Nat)))
    (c' : List (Nat × Nat)) (hc' : c' ∈ mergeInto p comps) :
    c' ∈ comps ∨ (p ∈ c' ∧ ∀ x ∈ c', x = p ∨
      ∃ c ∈ comps, x ∈ c ∧ (∀ z ∈ c, z ∈ c') ∧ ∃ y ∈ c, adj8 p y = true) := by
  induction comps with
  | nil =>
    right
    simp only [mergeInto] at hc'
    rcases List.mem_cons.mp hc' with rfl | habs
    · refine ⟨List.mem_cons_self _ _, ?_⟩
      intro x hx
      rcases List.mem_cons.mp hx with rfl | habs2
      · exact Or.inl rfl
      · cases habs2
    · cases habs
  | cons c0 rest ih =>
    by_cases h : c0.any (fun q => adj8 p q) = true
    · simp only [mergeInto, if_pos h] at hc'
      rcases List.mem_cons.mp hc' with rfl | hmem
      · right
        refine ⟨List.mem_append.mpr (Or.inr (List.mem_cons_self _ _)), ?_⟩
        intro x hx
        rcases List.mem_append.mp hx with hxc | hxr
        · refine Or.inr ⟨c0, List.mem_cons_self _ _, hxc,
            fun z hz => List.mem_append.mpr (Or.inl hz), ?_⟩
          rcases List.any_eq_true.mp h with ⟨y, hy, hyp⟩
          exact ⟨y, hy, hyp⟩
        · rcases List.mem_cons.mp hxr with rfl | hfl
          · exact Or.inl rfl
          · rcases List.mem_flatten.mp hfl with ⟨d, hd, hxd⟩
            have hdr := List.mem_filter.mp hd
            refine Or.inr ⟨d, List.mem_cons_of_mem _ hdr.1, hxd, ?_, ?_⟩
            · intro z hz
              refine List.mem_append.mpr (Or.inr (List.mem_cons_of_mem _ ?_))
              exact List.mem_flatten.mpr ⟨d, hd, hz⟩
            · rcases List.any_eq_true.mp hdr.2 with ⟨y, hy, hyp⟩
              exact ⟨y, hy, hyp⟩
      · exact Or.inl (List.mem_cons_of_mem _ (List.mem_filter.mp hmem).1)
    · simp only [mergeInto, if_neg h] at hc'
      rcases List.mem_cons.mp hc' with rfl | hmem
      · exact Or.inl (List.mem_cons_self _ _)
      · rcases ih hmem with hold | ⟨hpc', hall⟩
        · exact Or.inl (List.mem_cons_of_mem _ hold)
        · right
          refine ⟨hpc', ?_⟩
          intro x hx
          rcases hall x hx with rfl | ⟨c, hc, hxc, hsub, hy⟩
          · exact Or.inl rfl
          · exact Or.inr ⟨c, List.mem_cons_of_mem _ hc, hxc, hsub, hy⟩

theorem pairwise_disj_unique {α : Type} {l : List (List α)}
    (hp : l.Pairwise (fun c₁ c₂ => ∀ x, x ∈ c₁ → x ∉ c₂))
    {c₁ c₂ : List α} {x : α}
    (h1 : c₁ ∈ l) (h2 : c₂ ∈ l) (hx1 : x ∈ c₁) (hx2 : x ∈ c₂) : c₁ = c₂ := by
  induction l with
  | nil => cases h1
  | cons a t ih =>
    rcases List.pairwise_cons.mp hp with ⟨ha, ht⟩
    rcases List.mem_cons.mp h1 with rfl | h1m
    · rcases List.mem_cons.mp h2 with rfl | h2m
      · rfl
      · exact absurd hx2 (ha c₂ h2m x hx1)
    · rcases List.mem_cons.mp h2 with rfl | h2m
      · exact absurd hx1 (ha c₁ h1m x hx2)
      · exact ih ht h1m h2m

theorem mergeInto_pairwise (p : Nat × Nat) (comps : List (List (Nat × Nat)))
    (hp : comps.Pairwise (fun c₁ c₂ => ∀ x, x ∈ c₁ → x ∉ c₂))
    (hfresh : ∀ c ∈ comps, p ∉ c) :
    (mergeInto p comps).Pairwise (fun c₁ c₂ => ∀ x, x ∈ c₁ → x ∉ c₂) := by
  induction comps with
  | nil =>
    simp [mergeInto]
  | cons c0 rest ih =>
    rcases List.pairwise_cons.mp hp with ⟨h0, hrest⟩
    by_cases h : c0.any (fun q => adj8 p q) = true
    · simp only [mergeInto, if_pos h]
      refine List.pairwise_cons.mpr ⟨?_, ?_⟩
      · intro m hm x hx
        have hmr := List.mem_filter.mp hm
        intro hxm
        rcases List.mem_append.mp hx with hxc | hxr
        · exact h0 m hmr.1 x hxc hxm
        · rcases List.mem_cons.mp hxr with rfl | hfl
          · exact hfresh m (List.mem_cons_of_mem _ hmr.1) hxm
          · rcases List.mem_flatten.mp hfl with ⟨d, hd, hxd⟩
            have hdr := List.mem_filter.mp hd
            have heq := pairwise_disj_unique hrest hdr.1 hmr.1 hxd hxm
            subst heq
            rw [hdr.2] at hmr
            simp at hmr
      · exact hrest.sublist (List.filter_sublist _)
    · simp only [mergeInto, if_neg h]
      refine List.pairwise_cons.mpr ⟨?_, ?_⟩
      · intro c' hc' x hx hxc'
        rcases (mergeInto_mem p rest x).mp ⟨c', hc', hxc'⟩ with rfl | ⟨c, hc, hxc⟩
        · exact hfresh c0 (List.mem_cons_self _ _) hx
        · exact h0 c hc x hx hxc
      · exact ih hrest (fun c hc => hfresh c (List.mem_cons_of_mem _ hc))

theorem ReachIn_mono {l l' : List (Nat × Nat)} (hsub : ∀ x, x ∈ l → x ∈ l')
    {a b : Nat × Nat} (h : ReachIn l a b) : ReachIn l' a b :=
  ⟨hsub _ h.1,
    Relation.ReflTransGen.mono (fun _ _ hxy => ⟨hsub _ hxy.1, hxy.2⟩) h.2⟩

theorem ccfold_spec (l : List (Nat × Nat)) (hnd : l.Nodup) :
    (∀ c ∈ l.foldl (fun comps p => mergeInto p comps) [], ∀ x ∈ c, x ∈ l) ∧
    (∀ x ∈ l, ∃ c ∈ l.foldl (fun comps p => mergeInto p comps) [], x ∈ c) ∧
    (l.foldl (fun comps p => mergeInto p comps) []).Pairwise
      (fun c₁ c₂ => ∀ x, x ∈ c₁ → x ∉ c₂) ∧
    (∀ c ∈ l.foldl (fun comps p => mergeInto p comps) [],
      ∀ a ∈ c, ∀ b ∈ c, ReachIn l a b) ∧
    (∀ a b, a ∈ l → b ∈ l → adj8 a b = true →
      ∃ c ∈ l.foldl (fun comps p => mergeInto p comps) [], a ∈ c ∧ b ∈ c) := by
  induction l using List.reverseRecOn with
  | nil => simp
  | append_singleton l p ih =>
    have hnd' : l.Nodup := (List.nodup_append.mp hnd).1
    have hfresh : p ∉ l := by
      have := (List.nodup_append.mp hnd).2.2
      intro hp
      exact this hp (List.mem_cons_self _ _)
    obtain ⟨hmem, hcomp, hpw, hsound, hclosed⟩ := ih hnd'
    have hfold : (l ++ [p]).foldl (fun comps q => mergeInto q comps) [] =
        mergeInto p (l.foldl (fun comps q => mergeInto q comps) []) := by
      rw [List.foldl_append]
      rfl
    rw [hfold]
    have hsubl : ∀ x : Nat × Nat, x ∈ l → x ∈ l ++ [p] :=
      fun x hx => List.mem_append.mpr (Or.inl hx)
    have hpl : p ∈ l ++ [p] := List.mem_append.mpr (Or.inr (List.mem_cons_self _ _))
    refine ⟨?_, ?_, ?_, ?_, ?_⟩
    · intro c hc x hx
      rcases (mergeInto_mem p _ x).mp ⟨c, hc, hx⟩ with rfl | ⟨d, hd, hxd⟩
      · exact hpl
      · exact hsubl x (hmem d hd x hxd)
    · intro x hx
      rcases List.mem_append.mp hx with hxl | hxp
      · rcases hcomp x hxl with ⟨c, hc, hxc⟩
        rcases mergeInto_cover p _ c hc with ⟨c', hc', hsub⟩
        exact ⟨c', hc', hsub x hxc⟩
      · rcases List.mem_cons.mp hxp with rfl | habs
        · rcases mergeInto_pcomp x (l.foldl (fun comps q => mergeInto q comps) []) with
            ⟨c', hc', hpc', _⟩
          exact ⟨c', hc', hpc'⟩
        · cases habs
    · refine mergeInto_pairwise p _ hpw ?_
      intro c hc hp
      exact hfresh (hmem c hc p hp)
    · intro c hc a ha b hb
      rcases mergeInto_struct p _ c hc with hold | ⟨hpc, hall⟩
      · exact ReachIn_mono hsubl (hsound c hold a ha b hb)
      · have reach_to_p : ∀ x ∈ c, Relation.ReflTransGen
            (fun u v => v ∈ l ++ [p] ∧ adj8 u v = true) x p := by
          intro x hx
          rcases hall x hx with rfl | ⟨d, hd, hxd, _, y, hy, hpy⟩
          · exact Relation.ReflTransGen.refl
          · have hxy := (hsound d hd x hxd y hy).2
            have hxy' : Relation.ReflTransGen
                (fun u v => v ∈ l ++ [p] ∧ adj8 u v = true) x y :=
              Relation.ReflTransGen.mono (fun u v huv => ⟨hsubl v huv.1, huv.2⟩) hxy
            exact hxy'.tail ⟨hpl, adj8_symm hpy⟩
        have reach_from_p : ∀ x ∈ c, Relation.ReflTransGen
            (fun u v => v ∈ l ++ [p] ∧ adj8 u v = true) p x := by
          intro x hx
          rcases hall x hx with rfl | ⟨d, hd, hxd, _, y, hy, hpy⟩
          · exact Relation.ReflTransGen.refl
          · have hyx := (hsound d hd y hy x hxd).2
            have hyx' : Relation.ReflTransGen
                (fun u v => v ∈ l ++ [p] ∧ adj8 u v = true) y x :=
              Relation.ReflTransGen.mono (fun u v huv => ⟨hsubl v huv.1, huv.2⟩) hyx
            exact Relation.ReflTransGen.head ⟨hsubl y (hmem d hd y hy), hpy⟩ hyx'
        have haim : a ∈ l ++ [p] := by
          rcases hall a ha with rfl | ⟨d, hd, had, _⟩
          · exact hpl
          · exact hsubl a (hmem d hd a had)
        exact ⟨haim, (reach_to_p a ha).trans (reach_from_p b hb)⟩
    · intro a b hal hbl hadj
      rcases List.mem_append.mp hal with hala | halp
      · rcases List.mem_append.mp hbl with hblb | hblp
        · rcases hclosed a b hala hblb hadj with ⟨c, hc, hac, hbc⟩
          rcases mergeInto_cover p _ c hc with ⟨c', hc', hsub⟩
          exact ⟨c', hc', hsub a hac, hsub b hbc⟩
        · have hbp : b = p := by
            rcases List.mem_cons.mp hblp with rfl | habs
            · rfl
            · cases habs
          subst hbp
          rcases hcomp a hala with ⟨c, hc, hac⟩
          rcases mergeInto_pcomp b (l.foldl (fun comps q => mergeInto q comps) []) with
            ⟨c', hc', hpc', habs⟩
          exact ⟨c', hc', habs c hc ⟨a, hac, adj8_symm hadj⟩ a hac, hpc'⟩
      · have hap : a = p := by
          rcases List.mem_cons.mp halp with rfl | habs
          · rfl
          · cases habs
        subst hap
        rcases List.mem_append.mp hbl with hblb | hblp
        · rcases hcomp b hblb with ⟨c, hc, hbc⟩
          rcases mergeInto_pcomp a (l.foldl (fun comps q => mergeInto q comps) []) with
            ⟨c', hc', hpc', habs⟩
          exact ⟨c', hc', hpc', habs c hc ⟨b, hbc, hadj⟩ b hbc⟩
        · have hbp : b = a := by
            rcases List.mem_cons.mp hblp with rfl | habs
            · rfl
            · cases habs
          subst hbp
          rw [adj8_irrefl] at hadj
          cases hadj

theorem mem_fgPositions (m : Gray) (p : Nat × Nat) :
    p ∈ fgPositions m ↔ fgb m p = true := by
  rcases p with ⟨r, c⟩
  simp only [fgPositions, List.mem_flatMap, List.mem_map, List.mem_filter,
    List.mem_range, fgb, decide_eq_true_eq]
  constructor
  · rintro ⟨r', hr', c', ⟨⟨hc', hv⟩, heq⟩⟩
    obtain ⟨rfl, rfl⟩ := Prod.mk.injEq .. ▸ heq
    exact hv
  · intro hv
    have hr : r < m.length := by
      by_contra hge
      rw [List.getD_eq_default _ _ (Nat.le_of_not_lt hge)] at hv
      simp at hv
    have hc : c < (m.getD r []).length := by
      by_contra hge
      rw [List.getD_eq_default _ _ (Nat.le_of_not_lt hge)] at hv
      exact hv rfl
    exact ⟨r, hr, c, ⟨⟨hc, hv⟩, rfl⟩⟩

theorem fgPositions_nodup (m : Gray) : (fgPositions m).Nodup := by
  unfold fgPositions
  rw [List.nodup_flatMap]
  constructor
  · intro r _
    refine List.Nodup.map ?_ (List.Nodup.filter _ (List.nodup_range _))
    intro c1 c2 h
    simpa using h
  · refine List.Pairwise.imp ?_ (List.pairwise_lt_range _)
    intro r1 r2 hlt
    rw [Function.onFun, List.disjoint_left]
    rintro ⟨a, b⟩ h1 h2
    rcases List.mem_map.mp h1 with ⟨c1, _, heq1⟩
    rcases List.mem_map.mp h2 with ⟨c2, _, heq2⟩
    obtain ⟨rfl, rfl⟩ := Prod.mk.injEq .. ▸ heq1
    obtain ⟨rfl, _⟩ := Prod.mk.injEq .. ▸ heq2
    exact absurd rfl (Nat.ne_of_lt hlt)

/-- C3 (amended): the connected-component labelling used by both
specimen_mask and count_particles (cv2.connectedComponentsWithStats with
its default connectivity) puts two pixels into the same component exactly
when they are joined by a chain of foreground pixels in which consecutive
cells share an edge or a corner: 8-neighbourhood adjacency, not the
edge-sharing 4-neighbourhood the specification describes. -/
theorem c3_labels_iff_reach8 (m : Gray) (p q : Nat × Nat) :
    sameComp m p q ↔ ReachVia adj8 m p q := by
  obtain ⟨hmem, hcomp, hpw, hsound, hclosed⟩ :=
    ccfold_spec (fgPositions m) (fgPositions_nodup m)
  constructor
  · rintro ⟨c, hc, hp, hq⟩
    have h := hsound c hc p hp q hq
    refine ⟨(mem_fgPositions m p).mp h.1, ?_⟩
    exact Relation.ReflTransGen.mono
      (fun a b hab => ⟨(mem_fgPositions m b).mp hab.1, hab.2⟩) h.2
  · rintro ⟨hfg, hrt⟩
    have hpl : p ∈ fgPositions m := (mem_fgPositions m p).mpr hfg
    have key : ∀ x, Relation.ReflTransGen
        (fun a b => fgb m b = true ∧ adj8 a b = true) p x →
        ∃ c, c ∈ ccomps m ∧ p ∈ c ∧ x ∈ c := by
      intro x hx
      induction hx with
      | refl =>
        rcases hcomp p hpl with ⟨c, hc, hpc⟩
        exact ⟨c, hc, hpc, hpc⟩
      | tail hab hstep ih =>
        rcases ih with ⟨c1, hc1, hp1, hb1⟩
        have hbl := hmem c1 hc1 _ hb1
        have hql : _ ∈ fgPositions m := (mem_fgPositions m _).mpr hstep.1
        rcases hclosed _ _ hbl hql hstep.2 with ⟨c2, hc2, hb2, hq2⟩
        have : c1 = c2 := pairwise_disj_unique hpw hc1 hc2 hb1 hb2
        subst this
        exact ⟨c1, hc1, hp1, hq2⟩
    exact key q hrt

/-- The two-pixel diagonal mask refuting the edge-only connectivity claim. -/
def m0 : Gray := [[255, 0], [0, 255]]

/-- C3 (counterexample): in the mask with foreground only at (0,0) and
(1,1) the labelling of the pipeline puts both pixels in one component,
although they share no edge (only a corner), so the labelling does not
treat exactly the edge-sharing cells as connected. -/
theorem c3_counterexample :
    sameComp m0 (0, 0) (1, 1) ∧ ¬ ReachVia adj4 m0 (0, 0) (1, 1) := by
  constructor
  · exact ⟨[(0, 0), (1, 1)], by decide, by decide, by decide⟩
  · rintro ⟨-, hrt⟩
    rcases hrt.cases_head with heq | ⟨b, hstep, _⟩
    · exact absurd heq (by decide)
    · rcases hstep with ⟨hfg, hadj⟩
      rcases b with ⟨b1, b2⟩
      simp only [adj4, decide_eq_true_eq] at hadj
      obtain ⟨hne, hsum⟩ := hadj
      have hne2 : ¬(b1 = 0 ∧ b2 = 0) := by
        intro hz
        exact hne (by rw [hz.1, hz.2])
      have hcases : (b1 = 0 ∧ b2 = 1) ∨ (b1 = 1 ∧ b2 = 0) := by omega
      rcases hcases with ⟨rfl, rfl⟩ | ⟨rfl, rfl⟩
      · simp [fgb, m0] at hfg
      · simp [fgb, m0] at hfg

/-! Staged evaluation of the pipeline on the concrete images. -/

theorem closing_one (se : List (Int × Int)) (m : Gray) :
    closingG se 1 m = erodeG se (dilateG se m) := rfl

theorem closing_two (se : List (Int × Int)) (m : Gray) :
    closingG se 2 m = erodeG se (erodeG se (dilateG se (dilateG se m))) := rfl

theorem opening_one (se : List (Int × Int)) (m : Gray) :
    openingG se 1 m = dilateG se (erodeG se m) := rfl

theorem sl_g1 : bgr2gray img1 = stG1 := by decide

theorem sl_b1 : blur5 stG1 = stB1 := by decide

theorem sl_hb1 : histOf stB1 = stHB1 := by decide

theorem sl_ot1 : otsu_thresh stB1 = 83 := by
  unfold otsu_thresh
  rw [sl_hb1]
  decide

theorem sl_th1 : threshold_otsu stB1 = stTH1 := by
  unfold threshold_otsu
  rw [sl_ot1]
  decide

theorem sl_spth : specimen_th img1 = stTH1 := by
  unfold specimen_th
  rw [sl_g1, sl_b1, sl_th1]

theorem sl_cc1 : ccomps stTH1 = stK1 := by decide

theorem sl_am1 : argmaxIdx (stK1.map List.length) = 0 := by decide

theorem sl_cm1 : maskOfComp stTH1 (stK1.getD 0 []) = stCM1 := by decide

theorem sl_d1 : dilateG se9 stCM1 = stD1 := by decide

theorem sl_d2 : dilateG se9 stD1 = stD2 := by decide

theorem sl_e1 : erodeG se9 stD2 = stE1 := by decide

theorem sl_e2 : erodeG se9 stE1 = stE2 := by decide

theorem sl_spec : specimen_mask img1 = stE2 := by
  unfold specimen_mask
  simp only []
  rw [sl_spth, sl_cc1, if_neg (by decide), sl_am1, sl_cm1, closing_two,
    sl_d1, sl_d2, sl_e1, sl_e2]

theorem sl_cl : claheG stG1 = stCL1 := by decide

theorem sl_bd1 : dilateG se11 stCL1 = stBD1 := by decide

theorem sl_be1 : erodeG se11 stBD1 = stBE1 := by decide

theorem sl_bh1 : blackhatG se11 stCL1 = stBH1 := by
  unfold blackhatG
  simp only []
  rw [closing_one, sl_bd1, sl_be1]
  decide

theorem sl_hc1 : histOf stBH1 = stHC1 := by decide

theorem sl_ot2 : otsu_thresh stBH1 = 42 := by
  unfold otsu_thresh
  rw [sl_hc1]
  decide

theorem sl_thbh : threshold_otsu stBH1 = stCR1 := by
  unfold threshold_otsu
  rw [sl_ot2]
  decide

theorem sl_cr : crack_raw img1 = stCR1 := by
  unfold crack_raw
  rw [sl_g1, sl_cl, sl_bh1, sl_thbh]

theorem sl_cp : crack_pre img1 stE2 = stCP1 := by
  unfold crack_pre
  rw [sl_cr]
  decide

theorem sl_y0 : dilateG se3 stCP1 = stY0 := by decide

theorem sl_y1 : dilateG se3 stY0 = stY1 := by decide

theorem sl_y2 : dilateG se3 stY1 = stY2 := by decide

theorem sl_y3 : erodeG se3 stY2 = stY3 := by decide

theorem sl_y4 : erodeG se3 stY3 = stY4 := by decide

theorem sl_cmask : crack_mask img1 stE2 = stY4 := by
  unfold crack_mask
  rw [sl_cp, sl_y0, closing_two, sl_y1, sl_y2, sl_y3, sl_y4]

theorem sl_not : bitwise_not stY4 = stPN1 := by decide

theorem sl_pm0 : bitwise_and stE2 stPN1 = stPM0 := by decide

theorem sl_pe : erodeG se3 stPM0 = stPE1 := by decide

theorem sl_pd : dilateG se3 stPE1 = stPD1 := by decide

theorem sl_pmask : particles_mask img1 = stPD1 := by
  unfold particles_mask
  simp only []
  rw [sl_spec, sl_cmask, sl_not, sl_pm0, opening_one, sl_pe, sl_pd]

theorem sl_kp : ccomps stPD1 = stKP1 := by decide

theorem sl_cnt350 : count_particles img1 350 = (0, img1) := by
  unfold count_particles
  simp only []
  rw [sl_pmask, sl_kp]
  decide

theorem sl_gb : bgr2gray black8 = stZ8 := by decide

theorem sl_bb : blur5 stZ8 = stZ8 := by decide

theorem sl_hb0 : histOf stZ8 = stHB0 := by decide

theorem sl_ot0 : otsu_thresh stZ8 = 0 := by
  unfold otsu_thresh
  rw [sl_hb0]
  decide

theorem sl_th0 : threshold_otsu stZ8 = stZ8 := by
  unfold threshold_otsu
  rw [sl_ot0]
  decide

theorem sl_spthb : specimen_th black8 = stZ8 := by
  unfold specimen_th
  rw [sl_gb, sl_bb, sl_th0]

theorem sl_ccb : ccomps stZ8 = [] := by decide

/-- C1 (counterexample): on img1 the final crack mask returned by
crack_mask(img1, specimen_mask img1) has a foreground pixel at row 3,
column 6 that lies outside the specimen mask: the 3x3 dilation after the
intersection pushed the crack beyond the specimen boundary, so the final
crack mask is not a subset of the specimen mask. -/
theorem c1_counterexample :
    gget (crack_mask img1 (specimen_mask img1)) 3 6 0 = 255 ∧
      gget (specimen_mask img1) 3 6 0 = 0 := by
  rw [sl_spec, sl_cmask]
  exact ⟨by decide, by decide⟩

theorem c1_crack_subset_amended_witness :
    gget (crack_pre img1 (specimen_mask img1)) 3 4 0 ≠ 0 ∧
      gget (specimen_mask img1) 3 4 0 ≠ 0 := by
  have hp : gget (crack_pre img1 (specimen_mask img1)) 3 4 0 ≠ 0 := by
    rw [sl_spec, sl_cp]
    decide
  exact ⟨hp, c1_crack_subset_amended img1 (specimen_mask img1) 3 4 hp⟩

theorem c2_min_area_monotone_witness :
    1 ≤ 350 ∧ (count_particles img1 350).1 ≤ (count_particles img1 1).1 :=
  ⟨by decide, c2_min_area_monotone img1 1 350 (by decide)⟩

theorem c5_degenerate_returns_raw_witness :
    (ccomps (specimen_th black8)).length = 0 ∧
      specimen_mask black8 = specimen_th black8 := by
  have h : (ccomps (specimen_th black8)).length = 0 := by
    rw [sl_spthb, sl_ccb]
    rfl
  exact ⟨h, c5_degenerate_returns_raw black8 h⟩

theorem c8_deterministic_witness :
    count_particles img1 350 = count_particles img1 350 ∧
      specimen_mask img1 = specimen_mask img1 ∧
      crack_mask img1 (specimen_mask img1) = crack_mask img1 (specimen_mask img1) :=
  c8_deterministic img1 img1 350 350 rfl rfl

theorem c10_zero_count_overlay_identity_witness :
    (count_particles img1 350).1 = 0 ∧ (count_particles img1 350).2 = img1 := by
  have h : (count_particles img1 350).1 = 0 := by rw [sl_cnt350]
  exact ⟨h, c10_zero_count_overlay_identity img1 350 h⟩
